import Mathlib

/-!
Shallow embedding of the Lantiq/MaxLinear GSWIP DSA switch driver
(`drivers/net/dsa/lantiq_gsw_core.c`): the PCE table transport, the
64-entry VLAN slot pool (`priv->vlans`), the bridge/VLAN translator and
the forwarding-table (MAC bridge) scanner.

Conventions of the embedding:
* C machine integers become `Nat`; all bit values written by the modelled
  code are below 2^16 so no truncation point is reachable, and the C
  idiom `x &= ~BIT(p)` on a `u16` is rendered as `Nat.ldiff x (2 ^ p)`,
  which agrees with the C result for `x < 2 ^ 16`.
* `struct gswip_pce_table_entry` keeps its fields; the 8-element `key`
  and 5-element `val` arrays become the fields `key0..key3` / `val0..val2`
  actually used by the driver (the remaining words are written as zero
  and never read back by any modelled routine).
* The indirect busy-polled register protocol of
  `gswip_pce_table_entry_read`/`_write` is abstracted to one oracle bit
  per PCE transaction (`schedule`): `true` means every busy poll of that
  transaction clears in time, `false` means the transaction times out
  (`-ETIMEDOUT`).  A timed-out write leaves the modelled bank unchanged,
  the hardware-side content on a timeout being unspecified; no claim
  below depends on the bank content of a failed write.
* Pointers (`struct net_device *bridge`) become `Option Nat`, `none`
  standing for `NULL`.
* Key-search-mode writes (`key_mode = true`, used only for static MAC
  bridge entries) are placed by the hardware, not by an index from the
  driver; the model records the written record in `macWrites`.
-/

namespace Gswip

/-- Error returns used by the modelled driver routines
(`-ETIMEDOUT`, `-ENOSPC`, `-ENOENT`, `-EINVAL`, `-EIO`). -/
inductive GswErr where
  | timedOut
  | noSpace
  | noEnt
  | inval
  | ioErr
deriving DecidableEq, Repr

/-- `GSWIP_TABLE_ACTIVE_VLAN` -/
def GSWIP_TABLE_ACTIVE_VLAN : Nat := 0x01
/-- `GSWIP_TABLE_VLAN_MAPPING` -/
def GSWIP_TABLE_VLAN_MAPPING : Nat := 0x02
/-- `GSWIP_TABLE_MAC_BRIDGE` -/
def GSWIP_TABLE_MAC_BRIDGE : Nat := 0x0b
/-- `GSWIP_TABLE_MAC_BRIDGE_STATIC` -/
def GSWIP_TABLE_MAC_BRIDGE_STATIC : Nat := 0x01

/-- `GSWIP_PCE_PCTRL_0p(p) = 0x480 + p * 0xA` -/
def GSWIP_PCE_PCTRL_0p (p : Nat) : Nat := 0x480 + p * 0xA
/-- `GSWIP_PCE_PCTRL_0_TVM = BIT(5)` -/
def GSWIP_PCE_PCTRL_0_TVM : Nat := 2 ^ 5
/-- `GSWIP_PCE_VCTRL(p) = 0x485 + p * 0xA` -/
def GSWIP_PCE_VCTRL (p : Nat) : Nat := 0x485 + p * 0xA
/-- `GSWIP_PCE_VCTRL_UVR = BIT(0)` -/
def GSWIP_PCE_VCTRL_UVR : Nat := 2 ^ 0
/-- `GSWIP_PCE_VCTRL_VIMR = BIT(3)` -/
def GSWIP_PCE_VCTRL_VIMR : Nat := 2 ^ 3
/-- `GSWIP_PCE_VCTRL_VEMR = BIT(4)` -/
def GSWIP_PCE_VCTRL_VEMR : Nat := 2 ^ 4
/-- `GSWIP_PCE_VCTRL_VSR = BIT(5)` -/
def GSWIP_PCE_VCTRL_VSR : Nat := 2 ^ 5
/-- `GSWIP_PCE_DEFPVID(p) = 0x486 + p * 0xA` -/
def GSWIP_PCE_DEFPVID (p : Nat) : Nat := 0x486 + p * 0xA
/-- `GSWIP_BM_PCFGp(p) = 0x080 + p * 2` -/
def GSWIP_BM_PCFGp (p : Nat) : Nat := 0x080 + p * 2
/-- `GSWIP_BM_PCFG_CNTEN = BIT(0)` -/
def GSWIP_BM_PCFG_CNTEN : Nat := 2 ^ 0
/-- `GSWIP_FDMA_PCTRLp(p) = 0xA80 + p * 0x6` -/
def GSWIP_FDMA_PCTRLp (p : Nat) : Nat := 0xA80 + p * 0x6
/-- `GSWIP_FDMA_PCTRL_EN = BIT(0)` -/
def GSWIP_FDMA_PCTRL_EN : Nat := 2 ^ 0
/-- `GSWIP_FDMA_PCTRL_VLANMOD_BOTH = 0x3 << 3` -/
def GSWIP_FDMA_PCTRL_VLANMOD_BOTH : Nat := 0x3 * 2 ^ 3
/-- `GSWIP_SDMA_PCTRLp(p) = 0xBC0 + p * 0x6` -/
def GSWIP_SDMA_PCTRLp (p : Nat) : Nat := 0xBC0 + p * 0x6
/-- `GSWIP_SDMA_PCTRL_EN = BIT(0)` -/
def GSWIP_SDMA_PCTRL_EN : Nat := 2 ^ 0

/-- The addressable content of one PCE table record: the key words, the
value words and the validity bit (the fields of
`struct gswip_pce_table_entry` that the banks store). -/
structure PceStored where
  key0 : Nat := 0
  key1 : Nat := 0
  key2 : Nat := 0
  key3 : Nat := 0
  val0 : Nat := 0
  val1 : Nat := 0
  val2 : Nat := 0
  valid : Bool := false
deriving DecidableEq, Repr

/-- `struct gswip_pce_table_entry`: one transient PCE transaction record.
`index` maps to `PCE_TBL_ADDR`, `table` to the bank selector and
`keyMode` to the `key_mode` address-mode flag. -/
structure PceTableEntry where
  index : Nat := 0
  table : Nat := 0
  key0 : Nat := 0
  key1 : Nat := 0
  key2 : Nat := 0
  key3 : Nat := 0
  val0 : Nat := 0
  val1 : Nat := 0
  val2 : Nat := 0
  valid : Bool := false
  keyMode : Bool := false
deriving DecidableEq, Repr

/-- The stored part of a transaction record. -/
def PceTableEntry.stored (e : PceTableEntry) : PceStored :=
  { key0 := e.key0, key1 := e.key1, key2 := e.key2, key3 := e.key3
    val0 := e.val0, val1 := e.val1, val2 := e.val2, valid := e.valid }

/-- Rebuild a transaction record from a bank read at `(table, index)`,
as `gswip_pce_table_entry_read` fills the caller's struct. -/
def entryOfStored (table index : Nat) (st : PceStored) : PceTableEntry :=
  { index := index, table := table
    key0 := st.key0, key1 := st.key1, key2 := st.key2, key3 := st.key3
    val0 := st.val0, val1 := st.val1, val2 := st.val2, valid := st.valid }

/-- `struct gswip_vlan`: one slot of the 64-entry pool `priv->vlans`,
binding a VLAN-bank index to a bridge (`none` = `NULL`), a VLAN id and a
flow id. -/
structure VlanSlot where
  bridge : Option Nat := none
  vid : Nat := 0
  fid : Nat := 0
deriving DecidableEq, Repr

/-- The mutable driver state of `struct gswip_priv` reached by the
modelled routines, together with the hardware table banks and the
benign switch registers, and the transaction-outcome oracle. -/
structure GswipState where
  /-- `priv->hw_info->max_ports` -/
  maxPorts : Nat
  /-- `priv->hw_info->cpu_port` -/
  cpuPort : Nat
  /-- `priv->vlans[64]`; only indices `0..63` are meaningful. -/
  vlans : Nat → VlanSlot
  /-- `priv->port_vlan_filter` bit mask. -/
  portVlanFilter : Nat
  /-- Active VLAN bank content, by index. -/
  activeVlan : Nat → PceStored
  /-- VLAN mapping bank content, by index. -/
  vlanMapping : Nat → PceStored
  /-- MAC bridge (forwarding) bank content, by index (0..2047). -/
  macBridge : Nat → PceStored
  /-- Key-search-mode records written to the MAC bridge bank, in order. -/
  macWrites : List PceStored
  /-- Plain switch registers (`gswip_switch_w`/`gswip_switch_mask`), by offset. -/
  regs : Nat → Nat
  /-- MDIO-window registers (`gswip_slave_mdio_mask`), by offset. -/
  mdioRegs : Nat → Nat
  /-- Outcome of each successive PCE table transaction; `[]` means every
  remaining transaction succeeds. -/
  schedule : List Bool

/-- Pop the outcome of the next PCE transaction off the oracle. -/
def nextOutcome : List Bool → Bool × List Bool
  | [] => (true, [])
  | b :: r => (b, r)

/-- Point update of a `Nat`-indexed map. -/
def setMap {α : Type} (m : Nat → α) (i : Nat) (a : α) : Nat → α :=
  fun j => if j = i then a else m j

/-- Bank dispatch for an address-mode read. -/
def bankGet (s : GswipState) (table index : Nat) : PceStored :=
  if table = GSWIP_TABLE_ACTIVE_VLAN then s.activeVlan index
  else if table = GSWIP_TABLE_VLAN_MAPPING then s.vlanMapping index
  else s.macBridge index

/-- Bank dispatch for an address-mode write. -/
def bankSet (s : GswipState) (table index : Nat) (st : PceStored) : GswipState :=
  if table = GSWIP_TABLE_ACTIVE_VLAN then
    { s with activeVlan := setMap s.activeVlan index st }
  else if table = GSWIP_TABLE_VLAN_MAPPING then
    { s with vlanMapping := setMap s.vlanMapping index st }
  else
    { s with macBridge := setMap s.macBridge index st }

/-- `gswip_pce_table_entry_read`: one serialized PCE transaction.  A
timed-out busy poll yields `-ETIMEDOUT` and returns nothing; otherwise
the bank content at `(table, index)` is read back into the caller's
record. -/
def gswip_pce_table_entry_read (s : GswipState) (table index : Nat) :
    Except GswErr PceStored × GswipState :=
  match nextOutcome s.schedule with
  | (true, sched) => (.ok (bankGet s table index), { s with schedule := sched })
  | (false, sched) => (.error .timedOut, { s with schedule := sched })

/-- `gswip_pce_table_entry_write`: one serialized PCE transaction.  The
write is acknowledged only when the final `GSWIP_PCE_TBL_CTRL_BAS` poll
succeeds; on a timeout `-ETIMEDOUT` is returned.  Address-mode writes
store at `(table, index)`; key-search-mode writes (`key_mode`, used for
static MAC bridge entries) are placed by the hardware and recorded in
`macWrites`. -/
def gswip_pce_table_entry_write (s : GswipState) (e : PceTableEntry) :
    Except GswErr Unit × GswipState :=
  match nextOutcome s.schedule with
  | (true, sched) =>
      let s := { s with schedule := sched }
      if e.keyMode then
        (.ok (), { s with macWrites := s.macWrites ++ [e.stored] })
      else
        (.ok (), bankSet s e.table e.index e.stored)
  | (false, sched) => (.error .timedOut, { s with schedule := sched })

/-- `gswip_switch_mask(priv, clear, set, offset)` on the switch window:
`val = (val & ~clear) | set`. -/
def gswip_switch_mask (r : Nat → Nat) (clear set offset : Nat) : Nat → Nat :=
  setMap r offset (Nat.ldiff (r offset) clear ||| set)

/-- `gswip_switch_w(priv, val, offset)`. -/
def gswip_switch_w (r : Nat → Nat) (val offset : Nat) : Nat → Nat :=
  setMap r offset val

/-- First index `i` with `lo ≤ i < lo + fuel` satisfying `p`, scanning
upward — the loop shape `for (i = lo; i < lo + fuel; i++)` with `break`
on the first hit. -/
def scanRange (p : Nat → Bool) : Nat → Nat → Option Nat
  | _, 0 => none
  | lo, fuel + 1 => if p lo then some lo else scanRange p (lo + 1) fuel

/-- `gswip_add_single_port_br`: write (or, with `add = false`, deactivate)
the dedicated single-port isolation slot of `port` at index `port + 1`:
an Active VLAN entry keyed by VLAN id 0 with flow id `port + 1`, and —
only when adding — a VLAN mapping entry with port map
`BIT(port) | BIT(cpu_port)` and empty tagged map. -/
def gswip_add_single_port_br (s : GswipState) (port : Nat) (add : Bool) :
    Except GswErr Unit × GswipState :=
  if s.maxPorts ≤ port then (.error .ioErr, s)
  else
    let vlan_active : PceTableEntry :=
      { index := port + 1, table := GSWIP_TABLE_ACTIVE_VLAN
        key0 := 0 /- vid -/, val0 := port + 1 /- fid -/, valid := add }
    match gswip_pce_table_entry_write s vlan_active with
    | (.error e, s1) => (.error e, s1)
    | (.ok _, s1) =>
      if !add then (.ok (), s1)
      else
        let vlan_mapping : PceTableEntry :=
          { index := port + 1, table := GSWIP_TABLE_VLAN_MAPPING
            val0 := 0 /- vid -/
            val1 := 2 ^ port ||| 2 ^ s.cpuPort /- port map -/
            val2 := 0 /- tagged port map -/ }
        match gswip_pce_table_entry_write s1 vlan_mapping with
        | (.error e, s2) => (.error e, s2)
        | (.ok _, s2) => (.ok (), s2)

/-- `gswip_port_enable`: on a user (non-CPU) port, first install the
single-port isolation slot, then enable the RMON counter and the
fetch/store DMA paths, and program the port's PHY address.  `isUser` /
`isCpu` stand for `dsa_is_user_port` / `dsa_is_cpu_port`; `phyAddr` is
`phydev->mdio.addr & GSWIP_MDIO_PHY_ADDR_MASK` (`none` = no phydev). -/
def gswip_port_enable (s : GswipState) (port : Nat) (isUser isCpu : Bool)
    (phyAddr : Option Nat) : Except GswErr Unit × GswipState :=
  if !isUser && !isCpu then (.ok (), s)
  else
    let step1 : Except GswErr Unit × GswipState :=
      if !isCpu then gswip_add_single_port_br s port true else (.ok (), s)
    match step1 with
    | (.error e, s1) => (.error e, s1)
    | (.ok _, s1) =>
      let r1 := gswip_switch_w s1.regs GSWIP_BM_PCFG_CNTEN (GSWIP_BM_PCFGp port)
      let r2 := gswip_switch_mask r1 0
        (GSWIP_FDMA_PCTRL_EN ||| GSWIP_FDMA_PCTRL_VLANMOD_BOTH)
        (GSWIP_FDMA_PCTRLp port)
      let r3 := gswip_switch_mask r2 0 GSWIP_SDMA_PCTRL_EN (GSWIP_SDMA_PCTRLp port)
      let s2 := { s1 with regs := r3 }
      if !isCpu then
        -- GSWIP_MDIO_PHYp(p) = 0x15 - p; GSWIP_MDIO_PHY_ADDR_MASK = 0x1f
        let mdio_phy := phyAddr.getD 0
        (.ok (), { s2 with mdioRegs := (setMap s2.mdioRegs (0x15 - port)
          (Nat.ldiff (s2.mdioRegs (0x15 - port)) 0x1f ||| mdio_phy)) })
      else
        (.ok (), s2)

/-- `gswip_vlan_active_create`: find the first free slot in
`[max_ports, 64)`, write an Active VLAN entry for `(vid, fid)` there
(`fid = -1` selects the slot's own index as flow id) and, only after the
write succeeded, record the `(bridge, vid, fid)` binding.  Returns the
slot index, `-ENOSPC` when the pool is exhausted, or the write error. -/
def gswip_vlan_active_create (s : GswipState) (bridge : Nat) (fid : Int)
    (vid : Nat) : Except GswErr Nat × GswipState :=
  match scanRange (fun i => (s.vlans i).bridge.isNone) s.maxPorts (64 - s.maxPorts) with
  | none => (.error .noSpace, s)
  | some idx =>
    let fid : Nat := if fid = -1 then idx else fid.toNat
    let vlan_active : PceTableEntry :=
      { index := idx, table := GSWIP_TABLE_ACTIVE_VLAN
        key0 := vid, val0 := fid, valid := true }
    match gswip_pce_table_entry_write s vlan_active with
    | (.error e, s1) => (.error e, s1)
    | (.ok _, s1) =>
      (.ok idx, { s1 with vlans := (setMap s1.vlans idx
        { bridge := some bridge, vid := vid, fid := fid }) })

/-- `gswip_vlan_active_remove`: write an all-zero, invalid Active VLAN
entry at `idx` and clear the slot's bridge binding.  The binding is
cleared even when the write times out; the write's error is returned. -/
def gswip_vlan_active_remove (s : GswipState) (idx : Nat) :
    Except GswErr Unit × GswipState :=
  let vlan_active : PceTableEntry :=
    { index := idx, table := GSWIP_TABLE_ACTIVE_VLAN, valid := false }
  let r := gswip_pce_table_entry_write s vlan_active
  (r.1, { r.2 with vlans := (setMap r.2.vlans idx
    { r.2.vlans idx with bridge := none }) })

/-- The merged mapping entry a VLAN-unaware add writes back:
`val[1] |= BIT(cpu_port); val[1] |= BIT(port)`. -/
def unawareEntry (s : GswipState) (vm : PceTableEntry) (port : Nat) :
    PceTableEntry :=
  let vm := { vm with val1 := vm.val1 ||| 2 ^ s.cpuPort }
  let vm := { vm with val1 := vm.val1 ||| 2 ^ port }
  vm

/-- Tail of `gswip_vlan_add_unaware` after the mapping entry `vm` for
slot `idx` was prepared: merge `BIT(cpu_port)` and `BIT(port)` into the
port map, write the entry back, roll the speculative Active VLAN slot
back on failure, and finally clear the port's default VLAN id. -/
def addUnawareFinish (s : GswipState) (idx : Nat) (vm : PceTableEntry)
    (activeVlanCreated : Bool) (port : Nat) : Except GswErr Unit × GswipState :=
  match gswip_pce_table_entry_write s (unawareEntry s vm port) with
  | (.error e, s1) =>
    -- in case an Active VLAN was created delete it again
    if activeVlanCreated then
      let r := gswip_vlan_active_remove s1 idx
      (.error e, r.2)
    else (.error e, s1)
  | (.ok _, s1) =>
    (.ok (), { s1 with regs := gswip_switch_w s1.regs 0 (GSWIP_PCE_DEFPVID port) })

/-- `gswip_vlan_add_unaware`: find the first slot already bound to
`bridge` in `[max_ports, 64)`, else create one (vid 0, flow id = its own
index); then add `port` (and the CPU port) to the slot's port map. -/
def gswip_vlan_add_unaware (s : GswipState) (bridge : Nat) (port : Nat) :
    Except GswErr Unit × GswipState :=
  match scanRange (fun i => (s.vlans i).bridge == some bridge)
      s.maxPorts (64 - s.maxPorts) with
  | none =>
    match gswip_vlan_active_create s bridge (-1) 0 with
    | (.error e, s1) => (.error e, s1)
    | (.ok idx, s1) =>
      let vm : PceTableEntry :=
        { index := idx, table := GSWIP_TABLE_VLAN_MAPPING
          val0 := 0 /- vid of the vlan active table entry -/ }
      addUnawareFinish s1 idx vm true port
  | some idx =>
    match gswip_pce_table_entry_read s GSWIP_TABLE_VLAN_MAPPING idx with
    | (.error e, s1) => (.error e, s1)
    | (.ok st, s1) =>
      addUnawareFinish s1 idx (entryOfStored GSWIP_TABLE_VLAN_MAPPING idx st)
        false port

/-- The slot-scan loop of `gswip_vlan_add_aware`: walk `[lo, lo + fuel)`
over the pool; on each slot of `bridge`, record its flow id (flagging when
two distinct flow ids are observed for the one bridge — the condition
the driver only logs) and stop at the slot whose vid matches.  Returns
the final `fid` accumulator (`-1` initially), the matched index, and
whether the multiple-flow-id condition was observed. -/
def awareScanAux (v : Nat → VlanSlot) (bridge vid : Nat) :
    Int → Bool → Nat → Nat → Int × Option Nat × Bool
  | fid, multi, _, 0 => (fid, none, multi)
  | fid, multi, i, fuel + 1 =>
    if (v i).bridge = some bridge then
      let multi := multi || (decide (fid ≠ -1) && decide (fid ≠ ((v i).fid : Int)))
      let fid : Int := (v i).fid
      if (v i).vid = vid then (fid, some i, multi)
      else awareScanAux v bridge vid fid multi (i + 1) fuel
    else awareScanAux v bridge vid fid multi (i + 1) fuel

/-- The merged mapping entry a VLAN-aware add writes back: the vid value
word, `BIT(cpu_port)` into port map and tagged map, `BIT(port)` into the
port map, and `BIT(port)` cleared from (`untagged`) or merged into (not
`untagged`) the tagged map. -/
def awareEntry (s : GswipState) (vm : PceTableEntry) (port vid : Nat)
    (untagged : Bool) : PceTableEntry :=
  let vm := { vm with val0 := vid }
  let vm := { vm with val1 := vm.val1 ||| 2 ^ s.cpuPort }
  let vm := { vm with val2 := vm.val2 ||| 2 ^ s.cpuPort }
  let vm := { vm with val1 := vm.val1 ||| 2 ^ port }
  if untagged then { vm with val2 := Nat.ldiff vm.val2 (2 ^ port) }
  else { vm with val2 := vm.val2 ||| 2 ^ port }

/-- Tail of `gswip_vlan_add_aware` after the mapping entry `vm` for slot
`idx` was prepared: set the vid value word, merge the CPU port into both
the port map and the tagged map, merge `port` into the port map and —
tagged only when `untagged` is clear — into the tagged map; write back,
rolling a speculative slot back on failure; then program the port's
default VLAN id with the slot index when `pvid` is set. -/
def addAwareFinish (s : GswipState) (idx : Nat) (vm : PceTableEntry)
    (activeVlanCreated : Bool) (port vid : Nat) (untagged pvid : Bool) :
    Except GswErr Unit × GswipState :=
  match gswip_pce_table_entry_write s (awareEntry s vm port vid untagged) with
  | (.error e, s1) =>
    -- in case an Active VLAN was created delete it again
    if activeVlanCreated then
      let r := gswip_vlan_active_remove s1 idx
      (.error e, r.2)
    else (.error e, s1)
  | (.ok _, s1) =>
    if pvid then
      (.ok (), { s1 with regs := gswip_switch_w s1.regs idx (GSWIP_PCE_DEFPVID port) })
    else (.ok (), s1)

/-- `gswip_vlan_add_aware`: find the slot bound to `(bridge, vid)`,
inheriting the bridge's flow id from the scanned slots, else create one
with that flow id; then merge the port into the slot's mapping entry. -/
def gswip_vlan_add_aware (s : GswipState) (bridge port vid : Nat)
    (untagged pvid : Bool) : Except GswErr Unit × GswipState :=
  match awareScanAux s.vlans bridge vid (-1) false s.maxPorts (64 - s.maxPorts) with
  | (fid, none, _) =>
    match gswip_vlan_active_create s bridge fid vid with
    | (.error e, s1) => (.error e, s1)
    | (.ok idx, s1) =>
      let vm : PceTableEntry :=
        { index := idx, table := GSWIP_TABLE_VLAN_MAPPING
          val0 := vid /- vid of the vlan active table entry -/ }
      addAwareFinish s1 idx vm true port vid untagged pvid
  | (_, some idx, _) =>
    match gswip_pce_table_entry_read s GSWIP_TABLE_VLAN_MAPPING idx with
    | (.error e, s1) => (.error e, s1)
    | (.ok st, s1) =>
      addAwareFinish s1 idx (entryOfStored GSWIP_TABLE_VLAN_MAPPING idx st)
        false port vid untagged pvid

/-- `gswip_vlan_remove`: find the slot of `bridge` (matching `vid` when
`vlan_aware`), clear `BIT(port)` from both the port map and the tagged
map, write the entry back, release the slot when the port map minus the
CPU port became empty, and clear the port's default VLAN id if `pvid`. -/
def gswip_vlan_remove (s : GswipState) (bridge port vid : Nat)
    (pvid vlan_aware : Bool) : Except GswErr Unit × GswipState :=
  match scanRange (fun i => (s.vlans i).bridge == some bridge &&
      (!vlan_aware || (s.vlans i).vid == vid)) s.maxPorts (64 - s.maxPorts) with
  | none => (.error .noEnt, s)
  | some idx =>
    match gswip_pce_table_entry_read s GSWIP_TABLE_VLAN_MAPPING idx with
    | (.error e, s1) => (.error e, s1)
    | (.ok st, s1) =>
      let vm := entryOfStored GSWIP_TABLE_VLAN_MAPPING idx st
      let vm := { vm with val1 := Nat.ldiff vm.val1 (2 ^ port) }
      let vm := { vm with val2 := Nat.ldiff vm.val2 (2 ^ port) }
      match gswip_pce_table_entry_write s1 vm with
      | (.error e, s2) => (.error e, s2)
      | (.ok _, s2) =>
        let step : Except GswErr Unit × GswipState :=
          -- in case all ports are removed from the bridge, remove the VLAN
          if Nat.ldiff vm.val1 (2 ^ s.cpuPort) = 0 then
            gswip_vlan_active_remove s2 idx
          else (.ok (), s2)
        match step with
        | (.error e, s3) => (.error e, s3)
        | (.ok _, s3) =>
          if pvid then
            (.ok (), { s3 with regs := gswip_switch_w s3.regs 0 (GSWIP_PCE_DEFPVID port) })
          else (.ok (), s3)

/-- `gswip_port_vlan_filtering`: while the port is in a bridge
(`bridge ≠ none`), a request that differs from the port's recorded
VLAN-filtering bit is rejected with `-EIO` before any register write;
otherwise the port's `PCE_VCTRL` and `PCE_PCTRL_0` registers are
reprogrammed for the requested mode. -/
def gswip_port_vlan_filtering (s : GswipState) (port : Nat)
    (bridge : Option Nat) (vlan_filtering : Bool) :
    Except GswErr Unit × GswipState :=
  -- do not allow changing the VLAN filtering options while in bridge
  if bridge.isSome && (s.portVlanFilter.testBit port != vlan_filtering) then
    (.error .ioErr, s)
  else if vlan_filtering then
    let r1 := gswip_switch_mask s.regs GSWIP_PCE_VCTRL_VSR
      (GSWIP_PCE_VCTRL_UVR ||| GSWIP_PCE_VCTRL_VIMR ||| GSWIP_PCE_VCTRL_VEMR)
      (GSWIP_PCE_VCTRL port)
    let r2 := gswip_switch_mask r1 GSWIP_PCE_PCTRL_0_TVM 0 (GSWIP_PCE_PCTRL_0p port)
    (.ok (), { s with regs := r2 })
  else
    let r1 := gswip_switch_mask s.regs
      (GSWIP_PCE_VCTRL_UVR ||| GSWIP_PCE_VCTRL_VIMR ||| GSWIP_PCE_VCTRL_VEMR)
      GSWIP_PCE_VCTRL_VSR (GSWIP_PCE_VCTRL port)
    let r2 := gswip_switch_mask r1 0 GSWIP_PCE_PCTRL_0_TVM (GSWIP_PCE_PCTRL_0p port)
    (.ok (), { s with regs := r2 })

/-- Loop body of `gswip_port_fast_age` over indices `[i, i + fuel)`:
read each MAC bridge entry, skip entries that are invalid, static
(`val[1] & GSWIP_TABLE_MAC_BRIDGE_STATIC`) or whose ingress-port field
(`(val[0] & GENMASK(7,4)) >> 4`) differs from `port`, and write the
remaining ones back invalidated.  A read or write error aborts the
scan. -/
def fastAgeAux (s : GswipState) (port : Nat) : Nat → Nat → GswipState
  | _, 0 => s
  | i, fuel + 1 =>
    match gswip_pce_table_entry_read s GSWIP_TABLE_MAC_BRIDGE i with
    | (.error _, s1) => s1
    | (.ok m, s1) =>
      if !m.valid then fastAgeAux s1 port (i + 1) fuel
      else if m.val1 &&& GSWIP_TABLE_MAC_BRIDGE_STATIC ≠ 0 then
        fastAgeAux s1 port (i + 1) fuel
      else if (m.val0 &&& 0xF0) >>> 4 ≠ port then fastAgeAux s1 port (i + 1) fuel
      else
        match gswip_pce_table_entry_write s1
            (entryOfStored GSWIP_TABLE_MAC_BRIDGE i { m with valid := false }) with
        | (.error _, s2) => s2
        | (.ok _, s2) => fastAgeAux s2 port (i + 1) fuel

/-- `gswip_port_fast_age`: scan all 2048 forwarding-table indices and
invalidate every valid, non-static entry whose ingress-port field is
`port`. -/
def gswip_port_fast_age (s : GswipState) (port : Nat) : GswipState :=
  fastAgeAux s port 0 2048

/-- A 48-bit MAC address as its six bytes `addr[0] .. addr[5]`. -/
structure MacAddr where
  b0 : Nat := 0
  b1 : Nat := 0
  b2 : Nat := 0
  b3 : Nat := 0
  b4 : Nat := 0
  b5 : Nat := 0
deriving DecidableEq, Repr

/-- The static MAC bridge record `gswip_port_fdb` assembles for
`(addr, fid, port, add)`: key words from the address bytes and the flow
id, a one-bit port map when adding, the static flag, validity = `add`. -/
def fdbEntry (addr : MacAddr) (fid port : Nat) (add : Bool) : PceTableEntry :=
  { table := GSWIP_TABLE_MAC_BRIDGE
    keyMode := true
    key0 := addr.b5 ||| (addr.b4 <<< 8)
    key1 := addr.b3 ||| (addr.b2 <<< 8)
    key2 := addr.b1 ||| (addr.b0 <<< 8)
    key3 := fid
    val0 := if add then 2 ^ port else 0 /- port map -/
    val1 := GSWIP_TABLE_MAC_BRIDGE_STATIC
    valid := add }

/-- `gswip_port_fdb` (shared body of `gswip_port_fdb_add` /
`gswip_port_fdb_del`): take the flow id from the first slot in
`[max_ports, 64)` bound to the port's bridge; with no bridge or no such
slot, fail with `-EINVAL` before anything is written; otherwise write
the static entry in key-search mode. -/
def gswip_port_fdb (s : GswipState) (port : Nat) (bridge : Option Nat)
    (addr : MacAddr) (add : Bool) : Except GswErr Unit × GswipState :=
  match bridge with
  | none => (.error .inval, s)
  | some b =>
    match scanRange (fun i => (s.vlans i).bridge == some b)
        s.maxPorts (64 - s.maxPorts) with
    | none => (.error .inval, s)
    | some i =>
      gswip_pce_table_entry_write s (fdbEntry addr ((s.vlans i).fid) port add)

/-- `gswip_port_fdb_add` -/
def gswip_port_fdb_add (s : GswipState) (port : Nat) (bridge : Option Nat)
    (addr : MacAddr) : Except GswErr Unit × GswipState :=
  gswip_port_fdb s port bridge addr true

/-- `gswip_port_fdb_del` -/
def gswip_port_fdb_del (s : GswipState) (port : Nat) (bridge : Option Nat)
    (addr : MacAddr) : Except GswErr Unit × GswipState :=
  gswip_port_fdb s port bridge addr false

/-- Address reconstruction of `gswip_port_fdb_dump` from the key words. -/
def decodeAddr (m : PceStored) : MacAddr :=
  { b5 := m.key0 &&& 0xff, b4 := (m.key0 >>> 8) &&& 0xff
    b3 := m.key1 &&& 0xff, b2 := (m.key1 >>> 8) &&& 0xff
    b1 := m.key2 &&& 0xff, b0 := (m.key2 >>> 8) &&& 0xff }

/-- The per-entry filter of `gswip_port_fdb_dump`: an invalid entry is
skipped; a static entry is reported (as administratively configured)
exactly when `val[0] & BIT(port)` is set; a dynamic entry is reported
(as learned) exactly when its ingress-port field equals `port`. -/
def dumpReport (port : Nat) (m : PceStored) : Option (MacAddr × Bool) :=
  if !m.valid then none
  else if m.val1 &&& GSWIP_TABLE_MAC_BRIDGE_STATIC ≠ 0 then
    if m.val0 &&& 2 ^ port ≠ 0 then some (decodeAddr m, true) else none
  else
    if (m.val0 &&& 0xF0) >>> 4 = port then some (decodeAddr m, false) else none

/-- Loop body of `gswip_port_fdb_dump` over indices `[i, i + fuel)`,
collecting the `(addr, is_static)` pairs the callback receives in scan
order; a read error aborts the dump with that error. -/
def dumpAux (s : GswipState) (port : Nat) :
    Nat → Nat → Except GswErr (List (MacAddr × Bool)) × GswipState
  | _, 0 => (.ok [], s)
  | i, fuel + 1 =>
    match gswip_pce_table_entry_read s GSWIP_TABLE_MAC_BRIDGE i with
    | (.error e, s1) => (.error e, s1)
    | (.ok m, s1) =>
      match dumpReport port m with
      | none => dumpAux s1 port (i + 1) fuel
      | some rep =>
        match dumpAux s1 port (i + 1) fuel with
        | (.ok l, s2) => (.ok (rep :: l), s2)
        | (.error e, s2) => (.error e, s2)

/-- `gswip_port_fdb_dump`: scan all 2048 forwarding-table indices and
report the filtered entries. -/
def gswip_port_fdb_dump (s : GswipState) (port : Nat) :
    Except GswErr (List (MacAddr × Bool)) × GswipState :=
  dumpAux s port 0 2048

/-- Repeated slot allocation: one `gswip_vlan_active_create` (vid 0,
flow id = the slot's own index) per listed bridge, in order, collecting
the indices of the successful allocations. -/
def allocSeq (s : GswipState) : List Nat → List Nat × GswipState
  | [] => ([], s)
  | b :: bs =>
    match gswip_vlan_active_create s b (-1) 0 with
    | (.ok idx, s1) =>
      let r := allocSeq s1 bs
      (idx :: r.1, r.2)
    | (.error _, s1) => allocSeq s1 bs

/-- An xRX200-shaped test state (7 ports, CPU port 6, empty pool and
banks, all transactions succeeding) used by the concrete witnesses and
counterexamples below. -/
def state0 : GswipState :=
  { maxPorts := 7, cpuPort := 6, vlans := fun _ => {}, portVlanFilter := 0
    activeVlan := fun _ => {}, vlanMapping := fun _ => {}, macBridge := fun _ => {}
    macWrites := [], regs := fun _ => 0, mdioRegs := fun _ => 0, schedule := [] }

/-- A state whose pool already violates the one-flow-id-per-bridge
invariant: slots 7 and 8 both belong to bridge 1 but carry flow ids 7
and 8. -/
def divergentFidState : GswipState :=
  { state0 with vlans := fun i =>
      if i = 7 then { bridge := some 1, vid := 100, fid := 7 }
      else if i = 8 then { bridge := some 1, vid := 200, fid := 8 }
      else {} }

/-- A state with one slot (index 7) bound to bridge 1, vid 100, flow
id 7, whose mapping entry holds ports 1 and 6 (CPU) in both the port
map and the tagged map. -/
def oneSlotState : GswipState :=
  { state0 with
    vlans := fun i => if i = 7 then { bridge := some 1, vid := 100, fid := 7 } else {}
    vlanMapping := fun i =>
      if i = 7 then { val0 := 100, val1 := 2 ^ 6 ||| 2 ^ 1, val2 := 2 ^ 6 ||| 2 ^ 1 }
      else {} }

/-- A state with one slot (index 7) bound to bridge 1 whose mapping
holds only port 2 besides the CPU port — removing port 2 empties it. -/
def lastPortState : GswipState :=
  { state0 with
    vlans := fun i => if i = 7 then { bridge := some 1, vid := 0, fid := 7 } else {}
    vlanMapping := fun i =>
      if i = 7 then { val0 := 0, val1 := 2 ^ 6 ||| 2 ^ 2 } else {} }

/-- A state whose isolation slot for port 2 (index 3) is active, as
`gswip_port_enable` leaves it. -/
def isolatedState : GswipState :=
  { state0 with activeVlan := fun i =>
      if i = 3 then { key0 := 0, val0 := 3, valid := true } else {} }

/-- A state whose whole usable pool range `[7, 64)` is already bound. -/
def fullPoolState : GswipState :=
  { state0 with vlans := fun i =>
      if 7 ≤ i then { bridge := some 1, vid := 0, fid := 7 } else {} }

/-- A state whose forwarding bank holds a dynamic entry for port 2 at
index 3, a static entry for port 2 at index 4 and a dynamic entry for
port 3 at index 5 (the ingress-port field lives in bits 7..4 of
`val[0]`). -/
def ageScenarioState : GswipState :=
  { state0 with macBridge := fun i =>
      if i = 3 then { val0 := 0x20, val1 := 0, valid := true }
      else if i = 4 then { val0 := 0x20, val1 := 1, valid := true }
      else if i = 5 then { val0 := 0x30, val1 := 0, valid := true }
      else {} }

/-- The MAC address `aa:bb:cc:dd:ee:ff` of the spec's dump scenario. -/
def macSample : MacAddr :=
  { b0 := 0xaa, b1 := 0xbb, b2 := 0xcc, b3 := 0xdd, b4 := 0xee, b5 := 0xff }

/-- A state whose forwarding bank holds, at index 5, exactly the static
entry `gswip_port_fdb_add` writes for `(macSample, flow id 3, port 2)`,
every other forwarding entry being invalid. -/
def dumpScenarioState : GswipState :=
  { state0 with macBridge := fun i =>
      if i = 5 then (fdbEntry macSample 3 2 true).stored else {} }

/-- The bookkeeping content of the slot pool: which bridge, vid and flow
id each bound slot carries (`none` for a free slot).  The vid/fid words
of a free slot are stale storage, not bookkeeping. -/
def bindingMap (v : Nat → VlanSlot) : Nat → Option (Nat × Nat × Nat) :=
  fun i => match (v i).bridge with
    | some b => some (b, (v i).vid, (v i).fid)
    | none => none

/-- All pool slots (indices in `[mp, 64)`) bound to bridge `b` carry one
flow id. -/
def sameFid (mp : Nat) (v : Nat → VlanSlot) (b : Nat) : Prop :=
  ∀ i j, mp ≤ i → i < 64 → mp ≤ j → j < 64 →
    (v i).bridge = some b → (v j).bridge = some b →
    (v i).fid = (v j).fid

section Lemmas

theorem setMap_same {α : Type} (m : Nat → α) (i : Nat) (a : α) :
    setMap m i a i = a := by simp [setMap]

theorem setMap_other {α : Type} (m : Nat → α) (i j : Nat) (a : α)
    (h : j ≠ i) : setMap m i a j = m j := by simp [setMap, h]

theorem withSchedule_eq (s : GswipState) (h : s.schedule = []) :
    { s with schedule := [] } = s := by
  cases s
  simp only at h
  simp [h]

theorem pce_read_nil (s : GswipState) (t i : Nat) (h : s.schedule = []) :
    gswip_pce_table_entry_read s t i = (.ok (bankGet s t i), s) := by
  unfold gswip_pce_table_entry_read
  rw [h]
  simp [nextOutcome, withSchedule_eq s h]

theorem pce_write_nil (s : GswipState) (e : PceTableEntry) (h : s.schedule = []) :
    gswip_pce_table_entry_write s e =
      (.ok (), if e.keyMode then { s with macWrites := s.macWrites ++ [e.stored] }
       else bankSet s e.table e.index e.stored) := by
  unfold gswip_pce_table_entry_write
  rw [h]
  simp only [nextOutcome, withSchedule_eq s h]
  split <;> rfl

theorem bankSet_activeVlan (s : GswipState) (i : Nat) (st : PceStored) :
    bankSet s GSWIP_TABLE_ACTIVE_VLAN i st =
      { s with activeVlan := setMap s.activeVlan i st } := by
  simp [bankSet]

theorem bankSet_vlanMapping (s : GswipState) (i : Nat) (st : PceStored) :
    bankSet s GSWIP_TABLE_VLAN_MAPPING i st =
      { s with vlanMapping := setMap s.vlanMapping i st } := by
  simp [bankSet, GSWIP_TABLE_VLAN_MAPPING, GSWIP_TABLE_ACTIVE_VLAN]

theorem bankSet_macBridge (s : GswipState) (i : Nat) (st : PceStored) :
    bankSet s GSWIP_TABLE_MAC_BRIDGE i st =
      { s with macBridge := setMap s.macBridge i st } := by
  simp [bankSet, GSWIP_TABLE_MAC_BRIDGE, GSWIP_TABLE_ACTIVE_VLAN,
    GSWIP_TABLE_VLAN_MAPPING]

theorem bankGet_vlanMapping (s : GswipState) (i : Nat) :
    bankGet s GSWIP_TABLE_VLAN_MAPPING i = s.vlanMapping i := by
  simp [bankGet, GSWIP_TABLE_VLAN_MAPPING, GSWIP_TABLE_ACTIVE_VLAN]

theorem bankGet_macBridge (s : GswipState) (i : Nat) :
    bankGet s GSWIP_TABLE_MAC_BRIDGE i = s.macBridge i := by
  simp [bankGet, GSWIP_TABLE_MAC_BRIDGE, GSWIP_TABLE_ACTIVE_VLAN,
    GSWIP_TABLE_VLAN_MAPPING]

theorem scanRange_some_spec (p : Nat → Bool) :
    ∀ fuel lo j, scanRange p lo fuel = some j →
      lo ≤ j ∧ j < lo + fuel ∧ p j = true ∧
        ∀ k, lo ≤ k → k < j → p k = false := by
  intro fuel
  induction fuel with
  | zero => intro lo j h; simp [scanRange] at h
  | succ n ih =>
    intro lo j h
    unfold scanRange at h
    by_cases hp : p lo
    · simp [hp] at h
      subst h
      exact ⟨le_refl _, by omega, hp, fun k hk1 hk2 => absurd hk1 (by omega)⟩
    · simp [hp] at h
      obtain ⟨h1, h2, h3, h4⟩ := ih (lo + 1) j h
      refine ⟨by omega, by omega, h3, fun k hk1 hk2 => ?_⟩
      rcases Nat.eq_or_lt_of_le hk1 with rfl | hlt
      · simpa using hp
      · exact h4 k hlt hk2

theorem scanRange_none_spec (p : Nat → Bool) :
    ∀ fuel lo, scanRange p lo fuel = none →
      ∀ k, lo ≤ k → k < lo + fuel → p k = false := by
  intro fuel
  induction fuel with
  | zero => intro lo _ k hk1 hk2; omega
  | succ n ih =>
    intro lo h k hk1 hk2
    unfold scanRange at h
    by_cases hp : p lo
    · simp [hp] at h
    · simp [hp] at h
      rcases Nat.eq_or_lt_of_le hk1 with rfl | hlt
      · simpa using hp
      · exact ih (lo + 1) h k hlt (by omega)

theorem scanRange_isSome_of_exists (p : Nat → Bool) (fuel lo k : Nat)
    (hk1 : lo ≤ k) (hk2 : k < lo + fuel) (hp : p k = true) :
    ∃ j, scanRange p lo fuel = some j := by
  cases h : scanRange p lo fuel with
  | some j => exact ⟨j, rfl⟩
  | none =>
    have := scanRange_none_spec p fuel lo h k hk1 hk2
    rw [hp] at this
    cases this

theorem scanRange_eq_some (p : Nat → Bool) (fuel lo j : Nat)
    (hj1 : lo ≤ j) (hj2 : j < lo + fuel) (hp : p j = true)
    (hmin : ∀ k, lo ≤ k → k < j → p k = false) :
    scanRange p lo fuel = some j := by
  obtain ⟨i, hi⟩ := scanRange_isSome_of_exists p fuel lo j hj1 hj2 hp
  obtain ⟨h1, h2, h3, h4⟩ := scanRange_some_spec p fuel lo i hi
  have hij : ¬ i < j := fun hlt => by rw [hmin i h1 hlt] at h3; cases h3
  have hji : ¬ j < i := fun hlt => by rw [h4 j hj1 hlt] at hp; cases hp
  have : i = j := by omega
  rw [hi, this]

theorem pce_write_vlans (s : GswipState) (e : PceTableEntry) :
    (gswip_pce_table_entry_write s e).2.vlans = s.vlans := by
  unfold gswip_pce_table_entry_write
  rcases s.schedule with _ | ⟨b, r⟩ <;> simp [nextOutcome]
  · split
    · rfl
    · unfold bankSet; split
      · rfl
      · split <;> rfl
  · rcases b <;> simp
    split
    · rfl
    · unfold bankSet; split
      · rfl
      · split <;> rfl

theorem pce_read_vlans (s : GswipState) (t i : Nat) :
    (gswip_pce_table_entry_read s t i).2.vlans = s.vlans := by
  unfold gswip_pce_table_entry_read
  rcases s.schedule with _ | ⟨b, r⟩ <;> simp [nextOutcome]
  rcases b <;> simp

theorem scanRange_eq_none (p : Nat → Bool) (fuel lo : Nat)
    (h : ∀ k, lo ≤ k → k < lo + fuel → p k = false) :
    scanRange p lo fuel = none := by
  cases hs : scanRange p lo fuel with
  | none => rfl
  | some j =>
    obtain ⟨h1, h2, h3, _⟩ := scanRange_some_spec p fuel lo j hs
    rw [h j h1 h2] at h3
    cases h3

theorem add_single_port_br_true_nil (s : GswipState) (port : Nat)
    (hp : port < s.maxPorts) (hs : s.schedule = []) :
    gswip_add_single_port_br s port true =
      (.ok (), { s with
        activeVlan := (setMap s.activeVlan (port + 1)
          { key0 := 0, val0 := port + 1, valid := true })
        vlanMapping := (setMap s.vlanMapping (port + 1)
          { val0 := 0, val1 := 2 ^ port ||| 2 ^ s.cpuPort, val2 := 0 }) }) := by
  unfold gswip_add_single_port_br
  rw [if_neg (by omega)]
  dsimp only
  rw [pce_write_nil s _ hs]
  simp only [PceTableEntry.stored, Bool.false_eq_true, Bool.not_true, if_false,
    bankSet_activeVlan]
  rw [pce_write_nil]
  · simp only [PceTableEntry.stored, Bool.false_eq_true, if_false, bankSet_vlanMapping]
  · exact hs

theorem add_single_port_br_false_nil (s : GswipState) (port : Nat)
    (hp : port < s.maxPorts) (hs : s.schedule = []) :
    gswip_add_single_port_br s port false =
      (.ok (), { s with activeVlan := (setMap s.activeVlan (port + 1)
        { val0 := port + 1, valid := false }) }) := by
  unfold gswip_add_single_port_br
  rw [if_neg (by omega)]
  dsimp only
  rw [pce_write_nil s _ hs]
  simp [PceTableEntry.stored, bankSet_activeVlan]

theorem active_create_none (s : GswipState) (b : Nat) (fid : Int) (vid : Nat)
    (hscan : scanRange (fun i => (s.vlans i).bridge.isNone)
      s.maxPorts (64 - s.maxPorts) = none) :
    gswip_vlan_active_create s b fid vid = (.error .noSpace, s) := by
  unfold gswip_vlan_active_create
  rw [hscan]

theorem active_create_nil_some (s : GswipState) (b : Nat) (fid : Int)
    (vid idx : Nat) (hs : s.schedule = [])
    (hscan : scanRange (fun i => (s.vlans i).bridge.isNone)
      s.maxPorts (64 - s.maxPorts) = some idx) :
    gswip_vlan_active_create s b fid vid =
      (.ok idx, { s with
        activeVlan := (setMap s.activeVlan idx
          { key0 := vid, val0 := if fid = -1 then idx else fid.toNat, valid := true })
        vlans := (setMap s.vlans idx
          { bridge := some b, vid := vid, fid := if fid = -1 then idx else fid.toNat }) }) := by
  unfold gswip_vlan_active_create
  rw [hscan]
  dsimp only
  rw [pce_write_nil s _ hs]
  simp only [PceTableEntry.stored, Bool.false_eq_true, if_false, bankSet_activeVlan]

theorem active_remove_nil (s : GswipState) (idx : Nat) (hs : s.schedule = []) :
    gswip_vlan_active_remove s idx =
      (.ok (), { s with
        activeVlan := setMap s.activeVlan idx {}
        vlans := (setMap s.vlans idx { s.vlans idx with bridge := none }) }) := by
  unfold gswip_vlan_active_remove
  dsimp only
  rw [pce_write_nil s _ hs]
  simp only [PceTableEntry.stored, Bool.false_eq_true, if_false, bankSet_activeVlan]

theorem active_create_spec (s : GswipState) (b : Nat) (fid : Int)
    (vid idx : Nat) (s' : GswipState) (hs : s.schedule = [])
    (h : gswip_vlan_active_create s b fid vid = (.ok idx, s')) :
    s.maxPorts ≤ idx ∧ idx < 64 ∧ (s.vlans idx).bridge = none ∧
    (∀ k, s.maxPorts ≤ k → k < idx → (s.vlans k).bridge ≠ none) ∧
    s'.vlans = (setMap s.vlans idx
      { bridge := some b, vid := vid, fid := if fid = -1 then idx else fid.toNat }) ∧
    s'.schedule = [] ∧ s'.maxPorts = s.maxPorts ∧ s'.cpuPort = s.cpuPort := by
  cases hscan : scanRange (fun i => (s.vlans i).bridge.isNone)
      s.maxPorts (64 - s.maxPorts) with
  | none =>
    rw [active_create_none s b fid vid hscan] at h
    cases h
  | some j =>
    rw [active_create_nil_some s b fid vid j hs hscan] at h
    obtain ⟨h1, h2⟩ := Prod.mk.injEq .. ▸ h
    obtain rfl : j = idx := by simpa using h1
    subst h2
    obtain ⟨hj1, hj2, hj3, hj4⟩ := scanRange_some_spec _ _ _ _ hscan
    have hfuel : 64 - s.maxPorts ≠ 0 := by
      intro h0
      rw [h0] at hscan
      simp [scanRange] at hscan
    refine ⟨hj1, by omega, by simpa using hj3, fun k hk1 hk2 => ?_, rfl, hs, rfl, rfl⟩
    simpa [Option.isSome_iff_ne_none] using hj4 k hk1 hk2

theorem active_create_error_nil (s : GswipState) (b : Nat) (fid : Int)
    (vid : Nat) (e : GswErr) (s' : GswipState) (hs : s.schedule = [])
    (h : gswip_vlan_active_create s b fid vid = (.error e, s')) :
    s' = s ∧ e = .noSpace := by
  cases hscan : scanRange (fun i => (s.vlans i).bridge.isNone)
      s.maxPorts (64 - s.maxPorts) with
  | none =>
    rw [active_create_none s b fid vid hscan] at h
    obtain ⟨h1, h2⟩ := Prod.mk.injEq .. ▸ h
    exact ⟨h2.symm, by simpa using h1.symm⟩
  | some j =>
    rw [active_create_nil_some s b fid vid j hs hscan] at h
    obtain ⟨h1, _⟩ := Prod.mk.injEq .. ▸ h
    cases h1

theorem add_unaware_found_nil (s : GswipState) (b port j : Nat)
    (hs : s.schedule = [])
    (hscan : scanRange (fun i => (s.vlans i).bridge == some b)
      s.maxPorts (64 - s.maxPorts) = some j) :
    gswip_vlan_add_unaware s b port =
      (.ok (), { s with
        vlanMapping := (setMap s.vlanMapping j { s.vlanMapping j with
          val1 := (s.vlanMapping j).val1 ||| 2 ^ s.cpuPort ||| 2 ^ port })
        regs := gswip_switch_w s.regs 0 (GSWIP_PCE_DEFPVID port) }) := by
  unfold gswip_vlan_add_unaware
  rw [hscan]
  dsimp only
  rw [pce_read_nil s _ _ hs]
  dsimp only
  rw [bankGet_vlanMapping]
  unfold addUnawareFinish
  dsimp only [entryOfStored, unawareEntry]
  rw [pce_write_nil]
  · simp only [PceTableEntry.stored, Bool.false_eq_true, if_false, bankSet_vlanMapping]
  · exact hs

theorem allocSeq_ascending (bs : List Nat) :
    ∀ (s : GswipState) (m : Nat), s.schedule = [] → s.maxPorts ≤ m →
      (∀ k, s.maxPorts ≤ k → k < m → (s.vlans k).bridge ≠ none) →
      List.Chain' (· < ·) (allocSeq s bs).1 ∧ ∀ x ∈ (allocSeq s bs).1, m ≤ x := by
  induction bs with
  | nil => intro s m _ _ _; simp [allocSeq]
  | cons b bs ih =>
    intro s m hs hm hfull
    rcases hc : gswip_vlan_active_create s b (-1) 0 with ⟨r, s1⟩
    cases r with
    | error e =>
      obtain ⟨hseq, _⟩ := active_create_error_nil s b (-1) 0 e s1 hs hc
      rw [hseq] at hc
      have := ih s m hs hm hfull
      simpa [allocSeq, hc] using this
    | ok idx =>
      obtain ⟨h1, h2, h3, h4, h5, h6, h7, _⟩ := active_create_spec s b (-1) 0 idx s1 hs hc
      have hmidx : m ≤ idx := by
        by_contra hlt
        exact hfull idx h1 (by omega) h3
      have hinv : ∀ k, s1.maxPorts ≤ k → k < idx + 1 → (s1.vlans k).bridge ≠ none := by
        intro k hk1 hk2
        rw [h5]
        rcases Nat.lt_or_ge k idx with hk | hk
        · rw [setMap_other _ _ _ _ (by omega)]
          exact h4 k (h7 ▸ hk1) hk
        · obtain rfl : k = idx := by omega
          rw [setMap_same]
          simp
      obtain ⟨hchain, hge⟩ := ih s1 (idx + 1) h6 (by omega) hinv
      constructor
      · simp only [allocSeq, hc]
        rw [List.chain'_cons']
        refine ⟨fun y hy => ?_, hchain⟩
        have : y ∈ (allocSeq s1 bs).1 := List.mem_of_mem_head? hy
        have := hge y this
        omega
      · simp only [allocSeq, hc]
        intro x hx
        rcases List.mem_cons.mp hx with rfl | hx
        · exact hmidx
        · have := hge x hx
          omega

theorem fastAgeAux_spec (port : Nat) :
    ∀ (fuel lo : Nat) (s : GswipState), s.schedule = [] →
      (∀ j, (fastAgeAux s port lo fuel).macBridge j =
        if lo ≤ j ∧ j < lo + fuel ∧ (s.macBridge j).valid = true ∧
            (s.macBridge j).val1 &&& GSWIP_TABLE_MAC_BRIDGE_STATIC = 0 ∧
            ((s.macBridge j).val0 &&& 0xF0) >>> 4 = port
        then { s.macBridge j with valid := false } else s.macBridge j) ∧
      (fastAgeAux s port lo fuel).activeVlan = s.activeVlan ∧
      (fastAgeAux s port lo fuel).vlanMapping = s.vlanMapping ∧
      (fastAgeAux s port lo fuel).vlans = s.vlans := by
  intro fuel
  induction fuel with
  | zero =>
    intro lo s _
    refine ⟨fun j => ?_, rfl, rfl, rfl⟩
    rw [if_neg (by omega)]
    rfl
  | succ n ih =>
    intro lo s hs
    unfold fastAgeAux
    rw [pce_read_nil s _ _ hs]
    dsimp only
    rw [bankGet_macBridge]
    by_cases hv : (s.macBridge lo).valid
    · rw [if_neg (by simp [hv])]
      by_cases hst : (s.macBridge lo).val1 &&& GSWIP_TABLE_MAC_BRIDGE_STATIC ≠ 0
      · rw [if_pos hst]
        obtain ⟨ihj, ih2, ih3, ih4⟩ := ih (lo + 1) s hs
        refine ⟨fun j => ?_, ih2, ih3, ih4⟩
        rw [ihj j]
        by_cases hjlo : j = lo
        · subst hjlo
          rw [if_neg (by omega), if_neg (by tauto)]
        · exact if_congr
            ⟨fun ⟨a1, a2, p⟩ => ⟨by omega, by omega, p⟩,
             fun ⟨b1, b2, p⟩ => ⟨by omega, by omega, p⟩⟩ rfl rfl
      · rw [if_neg hst]
        by_cases hpt : ((s.macBridge lo).val0 &&& 0xF0) >>> 4 ≠ port
        · rw [if_pos hpt]
          obtain ⟨ihj, ih2, ih3, ih4⟩ := ih (lo + 1) s hs
          refine ⟨fun j => ?_, ih2, ih3, ih4⟩
          rw [ihj j]
          by_cases hjlo : j = lo
          · subst hjlo
            rw [if_neg (by omega), if_neg (by tauto)]
          · exact if_congr
              ⟨fun ⟨a1, a2, p⟩ => ⟨by omega, by omega, p⟩,
               fun ⟨b1, b2, p⟩ => ⟨by omega, by omega, p⟩⟩ rfl rfl
        · rw [if_neg hpt]
          rw [pce_write_nil]
          · simp only [PceTableEntry.stored, entryOfStored, Bool.false_eq_true,
              if_false, bankSet_macBridge]
            obtain ⟨ihj, ih2, ih3, ih4⟩ :=
              ih (lo + 1) { s with macBridge := (setMap s.macBridge lo
                { s.macBridge lo with valid := false }) } hs
            have hmb : ({ s with macBridge := (setMap s.macBridge lo
                { s.macBridge lo with valid := false }) } : GswipState).macBridge =
                setMap s.macBridge lo { s.macBridge lo with valid := false } := rfl
            rw [hmb] at ihj
            refine ⟨fun j => ?_, by simpa using ih2, by simpa using ih3,
              by simpa using ih4⟩
            rw [ihj j]
            by_cases hjlo : j = lo
            · subst hjlo
              rw [if_neg (by omega), setMap_same,
                if_pos ⟨le_refl _, by omega, hv, by tauto, by tauto⟩]
            · rw [setMap_other _ _ _ _ hjlo]
              exact if_congr
                ⟨fun ⟨a1, a2, p⟩ => ⟨by omega, by omega, p⟩,
                 fun ⟨b1, b2, p⟩ => ⟨by omega, by omega, p⟩⟩ rfl rfl
          · exact hs
    · rw [if_pos (by simp [hv])]
      obtain ⟨ihj, ih2, ih3, ih4⟩ := ih (lo + 1) s hs
      refine ⟨fun j => ?_, ih2, ih3, ih4⟩
      rw [ihj j]
      by_cases hjlo : j = lo
      · subst hjlo
        rw [if_neg (by omega), if_neg (by tauto)]
      · exact if_congr
          ⟨fun ⟨a1, a2, p⟩ => ⟨by omega, by omega, p⟩,
           fun ⟨b1, b2, p⟩ => ⟨by omega, by omega, p⟩⟩ rfl rfl

theorem dumpAux_spec (port : Nat) :
    ∀ (fuel lo : Nat) (s : GswipState), s.schedule = [] →
      dumpAux s port lo fuel =
        (.ok ((List.range' lo fuel).filterMap
          fun i => dumpReport port (s.macBridge i)), s) := by
  intro fuel
  induction fuel with
  | zero => intro lo s _; simp [dumpAux, List.range']
  | succ n ih =>
    intro lo s hs
    unfold dumpAux
    rw [pce_read_nil s _ _ hs]
    dsimp only
    rw [bankGet_macBridge]
    rw [ih (lo + 1) s hs]
    cases hrep : dumpReport port (s.macBridge lo) with
    | none => simp [List.range', hrep]
    | some rep => simp [List.range', hrep]

theorem ldiff_eval (w : Nat) {a b c : Nat} (ha : a < 2 ^ w) (hc : c < 2 ^ w)
    (h : ∀ i, i < w → (a.testBit i && !(b.testBit i)) = c.testBit i) :
    Nat.ldiff a b = c := by
  apply Nat.eq_of_testBit_eq
  intro i
  rw [Nat.testBit_ldiff]
  by_cases hi : i < w
  · exact h i hi
  · have hw : 2 ^ w ≤ 2 ^ i := Nat.pow_le_pow_right (by omega) (by omega)
    rw [Nat.testBit_eq_false_of_lt (lt_of_lt_of_le ha hw),
      Nat.testBit_eq_false_of_lt (lt_of_lt_of_le hc hw)]
    simp

theorem vlan_remove_nil_eq (s : GswipState) (b port vid : Nat)
    (pvid aware : Bool) (idx : Nat) (hs : s.schedule = [])
    (hscan : scanRange (fun i => (s.vlans i).bridge == some b &&
        (!aware || (s.vlans i).vid == vid)) s.maxPorts (64 - s.maxPorts) =
      some idx) :
    gswip_vlan_remove s b port vid pvid aware =
      (.ok (), { s with
        vlanMapping := (setMap s.vlanMapping idx
          { s.vlanMapping idx with
            val1 := Nat.ldiff (s.vlanMapping idx).val1 (2 ^ port)
            val2 := Nat.ldiff (s.vlanMapping idx).val2 (2 ^ port) })
        activeVlan := (if Nat.ldiff (Nat.ldiff (s.vlanMapping idx).val1 (2 ^ port))
              (2 ^ s.cpuPort) = 0
          then setMap s.activeVlan idx {} else s.activeVlan)
        vlans := (if Nat.ldiff (Nat.ldiff (s.vlanMapping idx).val1 (2 ^ port))
              (2 ^ s.cpuPort) = 0
          then setMap s.vlans idx { s.vlans idx with bridge := none } else s.vlans)
        regs := (if pvid then gswip_switch_w s.regs 0 (GSWIP_PCE_DEFPVID port)
          else s.regs) }) := by
  unfold gswip_vlan_remove
  rw [hscan]
  dsimp only
  rw [pce_read_nil s _ _ hs]
  dsimp only
  rw [bankGet_vlanMapping]
  dsimp only [entryOfStored]
  rw [pce_write_nil]
  · simp only [PceTableEntry.stored, Bool.false_eq_true, if_false,
      bankSet_vlanMapping]
    by_cases he : Nat.ldiff (Nat.ldiff (s.vlanMapping idx).val1 (2 ^ port))
        (2 ^ s.cpuPort) = 0
    · rw [if_pos he]
      rw [active_remove_nil]
      · dsimp only
        rw [if_pos he, if_pos he]
        cases pvid
        · rw [if_neg (by simp), if_neg (by simp)]
        · rw [if_pos rfl, if_pos rfl]
      · exact hs
    · rw [if_neg he]
      dsimp only
      rw [if_neg he, if_neg he]
      cases pvid
      · rw [if_neg (by simp), if_neg (by simp)]
      · rw [if_pos rfl, if_pos rfl]
  · exact hs

theorem setMap_setMap {α : Type} (m : Nat → α) (i : Nat) (a a' : α) :
    setMap (setMap m i a) i a' = setMap m i a' := by
  funext j
  by_cases hj : j = i <;> simp [setMap, hj]

theorem bindingMap_setMap_unbound (v : Nat → VlanSlot) (i : Nat) (slot : VlanSlot)
    (hfree : (v i).bridge = none) (hslot : slot.bridge = none) :
    bindingMap (setMap v i slot) = bindingMap v := by
  funext j
  by_cases hj : j = i
  · subst hj
    simp [bindingMap, setMap_same, hfree, hslot]
  · simp [bindingMap, setMap_other _ _ _ _ hj]

theorem awareScanAux_finds (v : Nat → VlanSlot) (b vid : Nat) :
    ∀ (fuel lo : Nat) (fid0 : Int) (m0 : Bool) (j : Nat), lo ≤ j → j < lo + fuel →
      (v j).bridge = some b → (v j).vid = vid →
      (∀ k, lo ≤ k → k < j → ¬((v k).bridge = some b ∧ (v k).vid = vid)) →
      ∃ fid' m', awareScanAux v b vid fid0 m0 lo fuel = (fid', some j, m') := by
  intro fuel
  induction fuel with
  | zero => intro lo fid0 m0 j h1 h2 _ _ _; omega
  | succ n ih =>
    intro lo fid0 m0 j h1 h2 hb hv hmin
    by_cases hlo : lo = j
    · subst hlo
      unfold awareScanAux
      rw [if_pos hb, if_pos hv]
      exact ⟨_, _, rfl⟩
    · have hlo2 : lo < j := by omega
      unfold awareScanAux
      by_cases hbr : (v lo).bridge = some b
      · rw [if_pos hbr]
        have hvl : ¬(v lo).vid = vid := fun hc =>
          hmin lo le_rfl hlo2 ⟨hbr, hc⟩
        rw [if_neg hvl]
        exact ih (lo + 1) _ _ j (by omega) (by omega) hb hv
          (fun k hk1 hk2 => hmin k (by omega) hk2)
      · rw [if_neg hbr]
        exact ih (lo + 1) _ _ j (by omega) (by omega) hb hv
          (fun k hk1 hk2 => hmin k (by omega) hk2)

theorem awareScanAux_none (v : Nat → VlanSlot) (b vid : Nat) :
    ∀ (fuel lo : Nat) (fid0 : Int) (m0 : Bool) (fid' : Int) (m' : Bool),
      awareScanAux v b vid fid0 m0 lo fuel = (fid', none, m') →
      (fid' = fid0 ∧ ∀ k, lo ≤ k → k < lo + fuel → (v k).bridge ≠ some b) ∨
      (∃ j, lo ≤ j ∧ j < lo + fuel ∧ (v j).bridge = some b ∧
        fid' = ((v j).fid : Int)) := by
  intro fuel
  induction fuel with
  | zero =>
    intro lo fid0 m0 fid' m' h
    unfold awareScanAux at h
    simp only [Prod.mk.injEq] at h
    exact Or.inl ⟨h.1.symm, fun k hk1 hk2 => by omega⟩
  | succ n ih =>
    intro lo fid0 m0 fid' m' h
    unfold awareScanAux at h
    by_cases hbr : (v lo).bridge = some b
    · rw [if_pos hbr] at h
      by_cases hv : (v lo).vid = vid
      · rw [if_pos hv] at h
        simp at h
      · rw [if_neg hv] at h
        rcases ih (lo + 1) _ _ fid' m' h with ⟨hf, _⟩ | ⟨j, hj1, hj2, hj3, hj4⟩
        · exact Or.inr ⟨lo, le_rfl, by omega, hbr, hf⟩
        · exact Or.inr ⟨j, by omega, by omega, hj3, hj4⟩
    · rw [if_neg hbr] at h
      rcases ih (lo + 1) _ _ fid' m' h with ⟨hf, hnone⟩ | ⟨j, hj1, hj2, hj3, hj4⟩
      · refine Or.inl ⟨hf, fun k hk1 hk2 => ?_⟩
        rcases Nat.eq_or_lt_of_le hk1 with rfl | hlt
        · exact hbr
        · exact hnone k hlt (by omega)
      · exact Or.inr ⟨j, by omega, by omega, hj3, hj4⟩

theorem active_create_ok_vlans (s : GswipState) (b : Nat) (fid : Int)
    (vid idx : Nat) (s' : GswipState)
    (h : gswip_vlan_active_create s b fid vid = (.ok idx, s')) :
    s.maxPorts ≤ idx ∧ idx < 64 ∧ (s.vlans idx).bridge = none ∧
    s'.vlans = (setMap s.vlans idx
      { bridge := some b, vid := vid
        fid := if fid = -1 then idx else fid.toNat }) := by
  unfold gswip_vlan_active_create at h
  cases hscan : scanRange (fun i => (s.vlans i).bridge.isNone)
      s.maxPorts (64 - s.maxPorts) with
  | none => rw [hscan] at h; cases h
  | some j =>
    rw [hscan] at h
    dsimp only at h
    rcases hw : gswip_pce_table_entry_write s
        { index := j, table := GSWIP_TABLE_ACTIVE_VLAN
          key0 := vid, val0 := if fid = -1 then j else fid.toNat, valid := true }
      with ⟨r, sw⟩
    rw [hw] at h
    cases r with
    | error e => cases h
    | ok u =>
      dsimp only at h
      obtain ⟨h1, h2⟩ := Prod.mk.injEq .. ▸ h
      obtain rfl : j = idx := by simpa using h1
      obtain ⟨hj1, hj2, hj3, _⟩ := scanRange_some_spec _ _ _ _ hscan
      have hfuel : 64 - s.maxPorts ≠ 0 := by
        intro h0
        rw [h0] at hscan
        simp [scanRange] at hscan
      have hwv : sw.vlans = s.vlans := by
        have h3 := pce_write_vlans s
          { index := j, table := GSWIP_TABLE_ACTIVE_VLAN, key0 := vid,
            val0 := if fid = -1 then j else fid.toNat, valid := true }
        rw [hw] at h3
        exact h3
      refine ⟨hj1, by omega, by simpa using hj3, ?_⟩
      rw [← h2]
      dsimp only
      rw [hwv]

theorem active_create_any_error_vlans (s : GswipState) (b : Nat) (fid : Int)
    (vid : Nat) (e : GswErr) (s' : GswipState)
    (h : gswip_vlan_active_create s b fid vid = (.error e, s')) :
    s'.vlans = s.vlans := by
  unfold gswip_vlan_active_create at h
  cases hscan : scanRange (fun i => (s.vlans i).bridge.isNone)
      s.maxPorts (64 - s.maxPorts) with
  | none =>
    rw [hscan] at h
    obtain ⟨-, h2⟩ := Prod.mk.injEq .. ▸ h
    rw [← h2]
  | some j =>
    rw [hscan] at h
    dsimp only at h
    rcases hw : gswip_pce_table_entry_write s
        { index := j, table := GSWIP_TABLE_ACTIVE_VLAN
          key0 := vid, val0 := if fid = -1 then j else fid.toNat, valid := true }
      with ⟨r, sw⟩
    rw [hw] at h
    cases r with
    | ok u => cases h
    | error e2 =>
      obtain ⟨-, h2⟩ := Prod.mk.injEq .. ▸ h
      have hwv := pce_write_vlans s
        { index := j, table := GSWIP_TABLE_ACTIVE_VLAN, key0 := vid,
          val0 := if fid = -1 then j else fid.toNat, valid := true }
      rw [hw] at hwv
      rw [← h2]
      exact hwv

theorem addAwareFinish_vlans_false (s : GswipState) (idx : Nat)
    (vm : PceTableEntry) (port vid : Nat) (u p : Bool) :
    (addAwareFinish s idx vm false port vid u p).2.vlans = s.vlans := by
  unfold addAwareFinish
  rcases hw : gswip_pce_table_entry_write s (awareEntry s vm port vid u)
    with ⟨r, s1⟩
  have hwv : s1.vlans = s.vlans := by
    have h3 := pce_write_vlans s (awareEntry s vm port vid u)
    rw [hw] at h3
    exact h3
  cases r with
  | error e => exact hwv
  | ok u2 =>
    dsimp only
    cases p <;> simp [hwv]

theorem addAwareFinish_cases_true (s : GswipState) (idx : Nat)
    (vm : PceTableEntry) (port vid : Nat) (u p : Bool) :
    ((addAwareFinish s idx vm true port vid u p).1 = .ok () ∧
      (addAwareFinish s idx vm true port vid u p).2.vlans = s.vlans) ∨
    ((∃ e, (addAwareFinish s idx vm true port vid u p).1 = .error e) ∧
      (addAwareFinish s idx vm true port vid u p).2.vlans =
        (setMap s.vlans idx { s.vlans idx with bridge := none })) := by
  unfold addAwareFinish
  rcases hw : gswip_pce_table_entry_write s (awareEntry s vm port vid u)
    with ⟨r, s1⟩
  have hwv : s1.vlans = s.vlans := by
    have h3 := pce_write_vlans s (awareEntry s vm port vid u)
    rw [hw] at h3
    exact h3
  cases r with
  | ok u2 =>
    dsimp only
    cases p <;> simp [hwv]
  | error e =>
    dsimp only
    rw [if_pos rfl]
    refine Or.inr ⟨⟨e, rfl⟩, ?_⟩
    unfold gswip_vlan_active_remove
    rcases hw2 : gswip_pce_table_entry_write s1
        { index := idx, table := GSWIP_TABLE_ACTIVE_VLAN, valid := false }
      with ⟨r2, s2⟩
    have hwv2 : s2.vlans = s1.vlans := by
      have h3 := pce_write_vlans s1
        { index := idx, table := GSWIP_TABLE_ACTIVE_VLAN, valid := false }
      rw [hw2] at h3
      exact h3
    dsimp only
    rw [hw2]
    dsimp only
    rw [hwv2, hwv]

theorem addUnawareFinish_vlans_false (s : GswipState) (idx : Nat)
    (vm : PceTableEntry) (port : Nat) :
    (addUnawareFinish s idx vm false port).2.vlans = s.vlans := by
  unfold addUnawareFinish
  rcases hw : gswip_pce_table_entry_write s (unawareEntry s vm port) with ⟨r, s1⟩
  have hwv : s1.vlans = s.vlans := by
    have h3 := pce_write_vlans s (unawareEntry s vm port)
    rw [hw] at h3
    exact h3
  cases r with
  | error e => exact hwv
  | ok u2 => simpa using hwv

theorem addUnawareFinish_cases_true (s : GswipState) (idx : Nat)
    (vm : PceTableEntry) (port : Nat) :
    ((addUnawareFinish s idx vm true port).1 = .ok () ∧
      (addUnawareFinish s idx vm true port).2.vlans = s.vlans) ∨
    ((∃ e, (addUnawareFinish s idx vm true port).1 = .error e) ∧
      (addUnawareFinish s idx vm true port).2.vlans =
        (setMap s.vlans idx { s.vlans idx with bridge := none })) := by
  unfold addUnawareFinish
  rcases hw : gswip_pce_table_entry_write s (unawareEntry s vm port) with ⟨r, s1⟩
  have hwv : s1.vlans = s.vlans := by
    have h3 := pce_write_vlans s (unawareEntry s vm port)
    rw [hw] at h3
    exact h3
  cases r with
  | ok u2 => simp [hwv]
  | error e =>
    dsimp only
    rw [if_pos rfl]
    refine Or.inr ⟨⟨e, rfl⟩, ?_⟩
    unfold gswip_vlan_active_remove
    rcases hw2 : gswip_pce_table_entry_write s1
        { index := idx, table := GSWIP_TABLE_ACTIVE_VLAN, valid := false }
      with ⟨r2, s2⟩
    have hwv2 : s2.vlans = s1.vlans := by
      have h3 := pce_write_vlans s1
        { index := idx, table := GSWIP_TABLE_ACTIVE_VLAN, valid := false }
      rw [hw2] at h3
      exact h3
    dsimp only
    rw [hw2]
    dsimp only
    rw [hwv2, hwv]

theorem add_aware_found_nil (s : GswipState) (b port vid : Nat)
    (untagged pvid : Bool) (fid0 : Int) (m0 : Bool) (idx : Nat)
    (hs : s.schedule = [])
    (hscan : awareScanAux s.vlans b vid (-1) false s.maxPorts (64 - s.maxPorts) =
      (fid0, some idx, m0)) :
    gswip_vlan_add_aware s b port vid untagged pvid =
      (.ok (), { s with
        vlanMapping := (setMap s.vlanMapping idx
          { s.vlanMapping idx with
            val0 := vid
            val1 := (s.vlanMapping idx).val1 ||| 2 ^ s.cpuPort ||| 2 ^ port
            val2 := (if untagged then
                Nat.ldiff ((s.vlanMapping idx).val2 ||| 2 ^ s.cpuPort) (2 ^ port)
              else (s.vlanMapping idx).val2 ||| 2 ^ s.cpuPort ||| 2 ^ port) })
        regs := (if pvid then gswip_switch_w s.regs idx (GSWIP_PCE_DEFPVID port)
          else s.regs) }) := by
  unfold gswip_vlan_add_aware
  rw [hscan]
  dsimp only
  rw [pce_read_nil s _ _ hs]
  dsimp only
  rw [bankGet_vlanMapping]
  unfold addAwareFinish
  cases untagged <;> cases pvid <;>
    simp only [awareEntry, entryOfStored, Bool.false_eq_true, if_false,
      eq_self_iff_true, if_true] <;>
    rw [pce_write_nil _ _ hs] <;>
    simp only [PceTableEntry.stored, Bool.false_eq_true, if_false,
      eq_self_iff_true, if_true, bankSet_vlanMapping]

theorem add_aware_created_nil (s : GswipState) (b port vid : Nat)
    (untagged pvid : Bool) (fid0 : Int) (m0 : Bool) (idx : Nat)
    (hs : s.schedule = [])
    (hscan : awareScanAux s.vlans b vid (-1) false s.maxPorts (64 - s.maxPorts) =
      (fid0, none, m0))
    (hfree : scanRange (fun i => (s.vlans i).bridge.isNone)
      s.maxPorts (64 - s.maxPorts) = some idx) :
    (gswip_vlan_add_aware s b port vid untagged pvid).1 = .ok () := by
  unfold gswip_vlan_add_aware
  rw [hscan]
  dsimp only
  rw [active_create_nil_some s b fid0 vid idx hs hfree]
  dsimp only
  unfold addAwareFinish
  cases untagged <;> cases pvid
  · simp only [awareEntry, entryOfStored, Bool.false_eq_true, if_false,
      eq_self_iff_true, if_true]
    rw [pce_write_nil]
    exact hs
  · simp only [awareEntry, entryOfStored, Bool.false_eq_true, if_false,
      eq_self_iff_true, if_true]
    rw [pce_write_nil]
    exact hs
  · simp only [awareEntry, entryOfStored, Bool.false_eq_true, if_false,
      eq_self_iff_true, if_true]
    rw [pce_write_nil]
    exact hs
  · simp only [awareEntry, entryOfStored, Bool.false_eq_true, if_false,
      eq_self_iff_true, if_true]
    rw [pce_write_nil]
    exact hs

end Lemmas

section Claims

/-- C9: while a port is an active bridge member, a request to change its
VLAN-filtering setting to a value different from the recorded one is
rejected with `-EIO` and the state — in particular every hardware
register — is left untouched; a request that does not change the
setting, or one on an unbridged port, proceeds and succeeds. -/
theorem claim9_vlan_filtering_gate (s : GswipState) (port : Nat) :
    (∀ b req, s.portVlanFilter.testBit port ≠ req →
        gswip_port_vlan_filtering s port (some b) req = (.error .ioErr, s)) ∧
    (∀ req, (gswip_port_vlan_filtering s port none req).1 = .ok ()) ∧
    (∀ bridge req, s.portVlanFilter.testBit port = req →
        (gswip_port_vlan_filtering s port bridge req).1 = .ok ()) := by
  refine ⟨fun b req h => ?_, fun req => ?_, fun bridge req h => ?_⟩
  · simp only [gswip_port_vlan_filtering, Option.isSome_some, Bool.true_and,
      bne_iff_ne, ne_eq, h, not_false_eq_true, if_true]
  · simp only [gswip_port_vlan_filtering, Option.isSome_none, Bool.false_and,
      Bool.false_eq_true, if_false]
    split <;> rfl
  · simp only [gswip_port_vlan_filtering, h, bne_self_eq_false, Bool.and_false,
      Bool.false_eq_true, if_false]
    split <;> rfl

/-- C9 witness. -/
theorem claim9_witness :
    (gswip_port_vlan_filtering
      { maxPorts := 7, cpuPort := 6, vlans := fun _ => {}, portVlanFilter := 0,
        activeVlan := fun _ => {}, vlanMapping := fun _ => {},
        macBridge := fun _ => {}, macWrites := [], regs := fun _ => 0,
        mdioRegs := fun _ => 0, schedule := [] } 2 (some 1) true).1 =
      .error .ioErr ∧
    (gswip_port_vlan_filtering
      { maxPorts := 7, cpuPort := 6, vlans := fun _ => {}, portVlanFilter := 0,
        activeVlan := fun _ => {}, vlanMapping := fun _ => {},
        macBridge := fun _ => {}, macWrites := [], regs := fun _ => 0,
        mdioRegs := fun _ => 0, schedule := [] } 2 none true).1 = .ok () ∧
    (gswip_port_vlan_filtering
      { maxPorts := 7, cpuPort := 6, vlans := fun _ => {}, portVlanFilter := 0,
        activeVlan := fun _ => {}, vlanMapping := fun _ => {},
        macBridge := fun _ => {}, macWrites := [], regs := fun _ => 0,
        mdioRegs := fun _ => 0, schedule := [] } 2 (some 1) false).1 = .ok () := by
  refine ⟨?_, ?_, ?_⟩
  · rw [(claim9_vlan_filtering_gate _ 2).1 1 true (by decide)]
  · exact (claim9_vlan_filtering_gate _ 2).2.1 true
  · exact (claim9_vlan_filtering_gate _ 2).2.2 (some 1) false (by decide)

/-- C5: a slot allocation searches only the indices `[max_ports, 64)`,
ascending: `gswip_vlan_active_create` returns the lowest free index, the
find-or-create of a VLAN-unaware add prefers the lowest index already
bound to the requested bridge, and an exhausted pool yields the
`-ENOSPC` capacity error (the unchanged state is returned, no crash).
Consequently repeated allocations return strictly ascending, hence
distinct, indices beyond the reserved range. -/
theorem claim5_first_fit_allocation :
    (∀ (s : GswipState) (b : Nat) (fid : Int) (vid idx : Nat) (s' : GswipState),
      s.schedule = [] → gswip_vlan_active_create s b fid vid = (.ok idx, s') →
      s.maxPorts ≤ idx ∧ idx < 64 ∧ (s.vlans idx).bridge = none ∧
      (∀ k, s.maxPorts ≤ k → k < idx → (s.vlans k).bridge ≠ none) ∧
      s'.vlans idx = { bridge := some b, vid := vid
                       fid := if fid = -1 then idx else fid.toNat }) ∧
    (∀ (s : GswipState) (b : Nat) (fid : Int) (vid : Nat),
      (∀ k, s.maxPorts ≤ k → k < 64 → (s.vlans k).bridge ≠ none) →
      gswip_vlan_active_create s b fid vid = (.error .noSpace, s)) ∧
    (∀ (s : GswipState) (b port j : Nat), s.schedule = [] →
      s.maxPorts ≤ j → j < 64 → (s.vlans j).bridge = some b →
      (∀ k, s.maxPorts ≤ k → k < j → (s.vlans k).bridge ≠ some b) →
      (gswip_vlan_add_unaware s b port).1 = .ok () ∧
      (gswip_vlan_add_unaware s b port).2.vlans = s.vlans ∧
      (gswip_vlan_add_unaware s b port).2.vlanMapping j =
        { s.vlanMapping j with
          val1 := (s.vlanMapping j).val1 ||| 2 ^ s.cpuPort ||| 2 ^ port }) ∧
    (∀ (bs : List Nat) (s : GswipState), s.schedule = [] →
      List.Chain' (· < ·) (allocSeq s bs).1 ∧
      ∀ x ∈ (allocSeq s bs).1, s.maxPorts ≤ x) := by
  refine ⟨fun s b fid vid idx s' hs h => ?_, fun s b fid vid hfull => ?_,
    fun s b port j hs hj1 hj2 hbj hmin => ?_, fun bs s hs => ?_⟩
  · obtain ⟨h1, h2, h3, h4, h5, _⟩ := active_create_spec s b fid vid idx s' hs h
    exact ⟨h1, h2, h3, h4, by rw [h5, setMap_same]⟩
  · apply active_create_none
    apply scanRange_eq_none
    intro k hk1 hk2
    cases hopt : (s.vlans k).bridge with
    | none => exact absurd hopt (hfull k hk1 (by omega))
    | some v => simp [hopt]
  · have hscan : scanRange (fun i => (s.vlans i).bridge == some b)
        s.maxPorts (64 - s.maxPorts) = some j := by
      apply scanRange_eq_some _ _ _ _ hj1 (by omega) (by simpa using hbj)
      intro k hk1 hk2
      simpa using hmin k hk1 hk2
    rw [add_unaware_found_nil s b port j hs hscan]
    exact ⟨rfl, rfl, by simp [setMap_same]⟩
  · exact allocSeq_ascending bs s s.maxPorts hs le_rfl
      (fun k hk1 hk2 => absurd hk1 (by omega))

/-- C5 witness. -/
theorem claim5_witness :
    gswip_vlan_active_create fullPoolState 2 (-1) 0 =
      (.error .noSpace, fullPoolState) ∧
    List.Chain' (· < ·) (allocSeq state0 [1, 2, 3]).1 ∧
    (gswip_vlan_add_unaware oneSlotState 1 2).1 = .ok () := by
  refine ⟨?_, ?_, ?_⟩
  · exact claim5_first_fit_allocation.2.1 fullPoolState 2 (-1) 0
      (fun k hk1 _ => by
        have hk : 7 ≤ k := hk1
        simp only [fullPoolState, state0]
        rw [if_pos hk]
        simp)
  · exact (claim5_first_fit_allocation.2.2.2 [1, 2, 3] state0 rfl).1
  · exact ((claim5_first_fit_allocation.2.2.1 oneSlotState 1 2 7 rfl (by decide)
      (by decide) (by decide) (fun k hk1 hk2 =>
        absurd (Nat.lt_of_le_of_lt hk1 hk2) (by decide)))).1

/-- C7: `gswip_port_fast_age` scans all 2048 forwarding-table indices
and invalidates exactly the entries that are valid, not static, and
whose embedded ingress-port field (bits 7..4 of `val[0]`) equals the
target port; every other entry — and every other part of the state —
is left unchanged. -/
theorem claim7_fast_age (s : GswipState) (port : Nat) (hs : s.schedule = []) :
    (∀ j, (gswip_port_fast_age s port).macBridge j =
      if j < 2048 ∧ (s.macBridge j).valid = true ∧
          (s.macBridge j).val1 &&& GSWIP_TABLE_MAC_BRIDGE_STATIC = 0 ∧
          ((s.macBridge j).val0 &&& 0xF0) >>> 4 = port
      then { s.macBridge j with valid := false } else s.macBridge j) ∧
    (gswip_port_fast_age s port).activeVlan = s.activeVlan ∧
    (gswip_port_fast_age s port).vlanMapping = s.vlanMapping ∧
    (gswip_port_fast_age s port).vlans = s.vlans := by
  obtain ⟨hj, h2, h3, h4⟩ := fastAgeAux_spec port 2048 0 s hs
  refine ⟨fun j => ?_, h2, h3, h4⟩
  rw [show gswip_port_fast_age s port = fastAgeAux s port 0 2048 from rfl, hj j]
  exact if_congr
    ⟨fun ⟨_, a2, p⟩ => ⟨by omega, p⟩, fun ⟨b1, p⟩ => ⟨by omega, by omega, p⟩⟩
    rfl rfl

/-- C7 witness: in `ageScenarioState`, `age(port = 2)` invalidates the
dynamic port-2 entry and leaves the static port-2 entry and the dynamic
port-3 entry valid. -/
theorem claim7_witness :
    ((gswip_port_fast_age ageScenarioState 2).macBridge 3).valid = false ∧
    ((gswip_port_fast_age ageScenarioState 2).macBridge 4).valid = true ∧
    ((gswip_port_fast_age ageScenarioState 2).macBridge 5).valid = true := by
  obtain ⟨hj, _, _, _⟩ := claim7_fast_age ageScenarioState 2 rfl
  exact ⟨by rw [hj 3]; decide, by rw [hj 4]; decide, by rw [hj 5]; decide⟩

/-- C4: a VLAN delete clears the leaving port's bit from both the port
map and the tagged map of the matching slot; when the remaining port map
minus the CPU (uplink) bit is empty the slot is released — its Active
VLAN entry is written invalid and its bridge binding cleared — and a
subsequent allocation returns that freed index again when every lower
pool index is still bound; when ports remain, the binding and the Active
VLAN bank are untouched. -/
theorem claim4_vlan_delete_release (s : GswipState) (b port vid : Nat)
    (pvid aware : Bool) (idx : Nat) (hs : s.schedule = [])
    (hidx1 : s.maxPorts ≤ idx) (hidx2 : idx < 64)
    (hmatch : (s.vlans idx).bridge = some b ∧
      (aware = true → (s.vlans idx).vid = vid))
    (hleast : ∀ k, s.maxPorts ≤ k → k < idx →
      ¬((s.vlans k).bridge = some b ∧ (aware = true → (s.vlans k).vid = vid))) :
    (gswip_vlan_remove s b port vid pvid aware).1 = .ok () ∧
    (gswip_vlan_remove s b port vid pvid aware).2.vlanMapping idx =
      { s.vlanMapping idx with
        val1 := Nat.ldiff (s.vlanMapping idx).val1 (2 ^ port)
        val2 := Nat.ldiff (s.vlanMapping idx).val2 (2 ^ port) } ∧
    (∀ j, j ≠ idx → (gswip_vlan_remove s b port vid pvid aware).2.vlanMapping j =
      s.vlanMapping j) ∧
    (Nat.ldiff (Nat.ldiff (s.vlanMapping idx).val1 (2 ^ port)) (2 ^ s.cpuPort) = 0 →
      ((gswip_vlan_remove s b port vid pvid aware).2.vlans idx).bridge = none ∧
      (gswip_vlan_remove s b port vid pvid aware).2.activeVlan idx = {} ∧
      (∀ j, j ≠ idx →
        (gswip_vlan_remove s b port vid pvid aware).2.vlans j = s.vlans j ∧
        (gswip_vlan_remove s b port vid pvid aware).2.activeVlan j =
          s.activeVlan j)) ∧
    (Nat.ldiff (Nat.ldiff (s.vlanMapping idx).val1 (2 ^ port)) (2 ^ s.cpuPort) ≠ 0 →
      (gswip_vlan_remove s b port vid pvid aware).2.vlans = s.vlans ∧
      (gswip_vlan_remove s b port vid pvid aware).2.activeVlan = s.activeVlan) ∧
    (∀ (b2 : Nat) (fid2 : Int) (vid2 : Nat),
      Nat.ldiff (Nat.ldiff (s.vlanMapping idx).val1 (2 ^ port)) (2 ^ s.cpuPort) = 0 →
      (∀ k, s.maxPorts ≤ k → k < idx → (s.vlans k).bridge ≠ none) →
      (gswip_vlan_active_create
        (gswip_vlan_remove s b port vid pvid aware).2 b2 fid2 vid2).1 =
          .ok idx) := by
  have hscan : scanRange (fun i => (s.vlans i).bridge == some b &&
      (!aware || (s.vlans i).vid == vid)) s.maxPorts (64 - s.maxPorts) =
      some idx := by
    apply scanRange_eq_some _ _ _ _ hidx1 (by omega)
    · rcases hmatch with ⟨h1, h2⟩
      cases aware
      · simp [h1]
      · simp [h1, h2 rfl]
    · intro k hk1 hk2
      have hk := hleast k hk1 hk2
      by_cases hb : (s.vlans k).bridge = some b
      · push_neg at hk
        obtain ⟨haw, hvid⟩ := hk hb
        simp [hb, haw, hvid]
      · simp [hb]
  rw [vlan_remove_nil_eq s b port vid pvid aware idx hs hscan]
  refine ⟨rfl, by dsimp only; rw [setMap_same],
    fun j hj => by dsimp only; rw [setMap_other _ _ _ _ hj],
    fun he => ?_, fun hne => ?_, fun b2 fid2 vid2 he hbound => ?_⟩
  · dsimp only
    rw [if_pos he, if_pos he]
    refine ⟨by rw [setMap_same], by rw [setMap_same],
      fun j hj => ⟨by rw [setMap_other _ _ _ _ hj], by rw [setMap_other _ _ _ _ hj]⟩⟩
  · dsimp only
    rw [if_neg hne, if_neg hne]
    exact ⟨rfl, rfl⟩
  · dsimp only
    rw [active_create_nil_some]
    · exact hs
    · dsimp only
      rw [if_pos he]
      apply scanRange_eq_some _ _ _ _ hidx1 (by omega)
      · simp [setMap_same]
      · intro k hk1 hk2
        rw [setMap_other _ _ _ _ (by omega)]
        cases hbk : (s.vlans k).bridge
        · exact absurd hbk (hbound k hk1 hk2)
        · rfl

/-- C4 witness: removing port 2 — the last non-CPU member — from the
slot of `lastPortState` releases slot 7, and the next allocation reuses
index 7. -/
theorem claim4_witness :
    (gswip_vlan_remove lastPortState 1 2 0 false false).1 = .ok () ∧
    ((gswip_vlan_remove lastPortState 1 2 0 false false).2.vlans 7).bridge =
      none ∧
    (gswip_vlan_remove lastPortState 1 2 0 false false).2.activeVlan 7 = {} ∧
    (gswip_vlan_active_create
      (gswip_vlan_remove lastPortState 1 2 0 false false).2 2 (-1) 0).1 =
      .ok 7 := by
  have h := claim4_vlan_delete_release lastPortState 1 2 0 false false 7 rfl
    (by decide) (by decide) (by decide)
    (fun k hk1 hk2 => absurd (Nat.lt_of_le_of_lt hk1 hk2) (by decide))
  have e1 : Nat.ldiff (lastPortState.vlanMapping 7).val1 (2 ^ 2) = 64 :=
    ldiff_eval 7 (by decide) (by decide) (by decide)
  have hempty : Nat.ldiff (Nat.ldiff (lastPortState.vlanMapping 7).val1 (2 ^ 2))
      (2 ^ lastPortState.cpuPort) = 0 := by
    rw [e1]
    exact ldiff_eval 7 (by decide) (by decide) (by decide)
  obtain ⟨h1, _, _, h4, _, h6⟩ := h
  obtain ⟨h41, h42, _⟩ := h4 hempty
  exact ⟨h1, h41, h42, h6 2 (-1) 0 hempty
    (fun k hk1 hk2 => absurd (Nat.lt_of_le_of_lt hk1 hk2) (by decide))⟩

/-- C8: the forwarding-table dump scans all 2048 indices and reports
per entry exactly what `dumpReport` filters: a valid static entry iff
bit `port` of its port map is set (as administratively configured,
`is_static = true`), a valid dynamic entry iff its embedded ingress-port
field equals `port` (as learned); hence the static entry that
`gswip_port_fdb_add` writes for port 2 is reported by `dump(2)` and, in
a table holding no other valid entry, not by `dump(3)`. -/
theorem claim8_fdb_dump (s : GswipState) (port : Nat) (hs : s.schedule = []) :
    gswip_port_fdb_dump s port =
      (.ok ((List.range' 0 2048).filterMap
        fun i => dumpReport port (s.macBridge i)), s) ∧
    (∀ (addr : MacAddr) (fid i : Nat),
      s.macBridge i = (fdbEntry addr fid 2 true).stored →
      dumpReport 2 (s.macBridge i) = some (decodeAddr (s.macBridge i), true) ∧
      dumpReport 3 (s.macBridge i) = none) ∧
    (∀ (addr : MacAddr) (fid i : Nat), i < 2048 →
      s.macBridge i = (fdbEntry addr fid 2 true).stored →
      (decodeAddr (s.macBridge i), true) ∈
        ((List.range' 0 2048).filterMap fun k => dumpReport 2 (s.macBridge k))) ∧
    (∀ (addr : MacAddr) (fid i : Nat),
      s.macBridge i = (fdbEntry addr fid 2 true).stored →
      (∀ k, k ≠ i → (s.macBridge k).valid = false) →
      (List.range' 0 2048).filterMap (fun k => dumpReport 3 (s.macBridge k)) = []) := by
  have hstatic : ∀ (addr : MacAddr) (fid i : Nat),
      s.macBridge i = (fdbEntry addr fid 2 true).stored →
      dumpReport 2 (s.macBridge i) = some (decodeAddr (s.macBridge i), true) ∧
      dumpReport 3 (s.macBridge i) = none := by
    intro addr fid i h
    rw [h]
    constructor
    · simp [dumpReport, fdbEntry, PceTableEntry.stored,
        GSWIP_TABLE_MAC_BRIDGE_STATIC]
    · simp [dumpReport, fdbEntry, PceTableEntry.stored,
        GSWIP_TABLE_MAC_BRIDGE_STATIC]
      decide
  refine ⟨dumpAux_spec port 2048 0 s hs, hstatic, ?_, ?_⟩
  · intro addr fid i hi h
    exact List.mem_filterMap.mpr
      ⟨i, List.mem_range'_1.mpr ⟨Nat.zero_le i, by omega⟩, (hstatic addr fid i h).1⟩
  · intro addr fid i h hrest
    apply List.filterMap_eq_nil_iff.mpr
    intro k _
    by_cases hk : k = i
    · subst hk
      exact (hstatic addr fid k h).2
    · simp [dumpReport, hrest k hk]

set_option maxRecDepth 40000 in
/-- C8 witness: in `dumpScenarioState`, the static entry added for
`(macSample, flow id 3, port 2)` is the single report of `dump(2)` and
`dump(3)` reports nothing. -/
theorem claim8_witness :
    (gswip_port_fdb_dump dumpScenarioState 2).1 =
      .ok [(decodeAddr (fdbEntry macSample 3 2 true).stored, true)] ∧
    (gswip_port_fdb_dump dumpScenarioState 3).1 = .ok [] := by
  have h2 := (claim8_fdb_dump dumpScenarioState 2 rfl).1
  have h3 := (claim8_fdb_dump dumpScenarioState 3 rfl).1
  constructor
  · rw [h2]
    exact congrArg Except.ok (by decide)
  · rw [h3]
    exact congrArg Except.ok (by decide)

/-- C10: a static forwarding-table add/delete takes the flow id written
into the entry key from the first (lowest-index) pool slot bound to the
port's bridge; with no bridge, or no slot bound to it, the operation
fails with `-EINVAL` and writes nothing (the state is returned
unchanged). -/
theorem claim10_fdb_fid_selection (s : GswipState) (port : Nat)
    (addr : MacAddr) (add : Bool) :
    (gswip_port_fdb s port none addr add = (.error .inval, s)) ∧
    (∀ b, (∀ k, s.maxPorts ≤ k → k < 64 → (s.vlans k).bridge ≠ some b) →
      gswip_port_fdb s port (some b) addr add = (.error .inval, s)) ∧
    (∀ b j, s.schedule = [] → s.maxPorts ≤ j → j < 64 →
      (s.vlans j).bridge = some b →
      (∀ k, s.maxPorts ≤ k → k < j → (s.vlans k).bridge ≠ some b) →
      gswip_port_fdb s port (some b) addr add =
        (.ok (), { s with macWrites :=
          s.macWrites ++ [(fdbEntry addr ((s.vlans j).fid) port add).stored] })) := by
  refine ⟨rfl, fun b hb => ?_, fun b j hs hj1 hj2 hbj hmin => ?_⟩
  · have hnone : scanRange (fun i => (s.vlans i).bridge == some b)
        s.maxPorts (64 - s.maxPorts) = none := by
      apply scanRange_eq_none
      intro k hk1 hk2
      simpa using hb k hk1 (by omega)
    simp only [gswip_port_fdb, hnone]
  · have hsome : scanRange (fun i => (s.vlans i).bridge == some b)
        s.maxPorts (64 - s.maxPorts) = some j := by
      apply scanRange_eq_some _ _ _ _ hj1 (by omega) (by simpa using hbj)
      intro k hk1 hk2
      simpa using hmin k hk1 hk2
    simp only [gswip_port_fdb, hsome]
    rw [pce_write_nil _ _ hs]
    rfl

/-- C6: enabling a non-uplink port writes its dedicated single-port
isolation slot at index `port + 1`: an Active VLAN entry keyed by VLAN
id 0 with flow id `port + 1` marked valid, and a VLAN mapping entry
whose port map is exactly `{port, cpu_port}` with an empty tagged map;
no other table entry and no slot binding is touched.  Deactivating the
isolation entry (as bridge join does) only clears the Active VLAN
entry's valid bit, leaving the mapping bank and the slot pool alone. -/
theorem claim6_single_port_isolation (s : GswipState) (port : Nat)
    (phy : Option Nat) (hp : port < s.maxPorts) (hs : s.schedule = []) :
    ((gswip_port_enable s port true false phy).1 = .ok () ∧
     (gswip_port_enable s port true false phy).2.activeVlan (port + 1) =
       { key0 := 0, val0 := port + 1, valid := true } ∧
     (gswip_port_enable s port true false phy).2.vlanMapping (port + 1) =
       { val0 := 0, val1 := 2 ^ port ||| 2 ^ s.cpuPort, val2 := 0 } ∧
     (∀ j, j ≠ port + 1 →
       (gswip_port_enable s port true false phy).2.activeVlan j = s.activeVlan j ∧
       (gswip_port_enable s port true false phy).2.vlanMapping j = s.vlanMapping j) ∧
     (gswip_port_enable s port true false phy).2.macBridge = s.macBridge ∧
     (gswip_port_enable s port true false phy).2.vlans = s.vlans) ∧
    (s.activeVlan (port + 1) = { key0 := 0, val0 := port + 1, valid := true } →
     (gswip_add_single_port_br s port false).1 = .ok () ∧
     (gswip_add_single_port_br s port false).2.activeVlan (port + 1) =
       { s.activeVlan (port + 1) with valid := false } ∧
     (∀ j, j ≠ port + 1 →
       (gswip_add_single_port_br s port false).2.activeVlan j = s.activeVlan j) ∧
     (gswip_add_single_port_br s port false).2.vlanMapping = s.vlanMapping ∧
     (gswip_add_single_port_br s port false).2.vlans = s.vlans) := by
  constructor
  · have he := add_single_port_br_true_nil s port hp hs
    simp only [gswip_port_enable, Bool.not_true, Bool.not_false, Bool.false_and,
      Bool.false_eq_true, if_false, if_true, he]
    refine ⟨by trivial, by rw [setMap_same], by rw [setMap_same], fun j hj => ?_,
      by trivial, by trivial⟩
    rw [setMap_other _ _ _ _ hj, setMap_other _ _ _ _ hj]
    exact ⟨rfl, rfl⟩
  · intro hA
    rw [add_single_port_br_false_nil s port hp hs]
    refine ⟨rfl, ?_, fun j hj => ?_, rfl, rfl⟩
    · rw [hA]
      dsimp only
      rw [setMap_same]
    · exact setMap_other _ _ _ _ hj

/-- C6 witness. -/
theorem claim6_witness :
    (gswip_port_enable state0 2 true false none).1 = .ok () ∧
    (gswip_port_enable state0 2 true false none).2.activeVlan 3 =
      { key0 := 0, val0 := 3, valid := true } ∧
    (gswip_add_single_port_br isolatedState 2 false).2.activeVlan 3 =
      { key0 := 0, val0 := 3, valid := false } := by
  refine ⟨(claim6_single_port_isolation state0 2 none (by decide) rfl).1.1, ?_, ?_⟩
  · have h := (claim6_single_port_isolation state0 2 none (by decide) rfl).1.2.1
    simpa using h
  · have h := (claim6_single_port_isolation isolatedState 2 none (by decide) rfl).2
      (by decide)
    rw [h.2.1]
    decide

/-- C10 witness. -/
theorem claim10_witness :
    (gswip_port_fdb
      { maxPorts := 7, cpuPort := 6
        vlans := fun i => if i = 7 then { bridge := some 1, vid := 100, fid := 7 } else {}
        portVlanFilter := 0, activeVlan := fun _ => {}, vlanMapping := fun _ => {}
        macBridge := fun _ => {}, macWrites := [], regs := fun _ => 0
        mdioRegs := fun _ => 0, schedule := [] } 2 (some 1)
      { b0 := 0xaa, b1 := 0xbb, b2 := 0xcc, b3 := 0xdd, b4 := 0xee, b5 := 0xff }
      true).1 = .ok () := by
  rw [(claim10_fdb_fid_selection _ 2 _ true).2.2 1 7 rfl (by decide) (by decide)
    (by decide) (fun k hk1 hk2 => absurd (Nat.lt_of_le_of_lt hk1 hk2) (by decide))]

/-- C3 (amended): a VLAN-aware add that finds the slot for
`(bridge, vid)` succeeds and merges `BIT(port)` into the slot's port
member map `val[1]` unconditionally, while in the tagged map `val[2]`
the port's bit ends up set exactly when the `untagged` flag is CLEAR
(the bit is cleared from `val[2]` when `untagged` is set); every other
port's bit in both maps is preserved; `pvid` programs the slot index
into the port's default-VLAN-id register and otherwise the registers
are untouched; the slot pool is unchanged.  The claim's polarity — the
conditionally-written map gains the bit when the flag is SET — is the
reverse of the source's `untagged ? (val[2] &= ~BIT(port)) :
(val[2] |= BIT(port))`. -/
theorem claim3_vlan_aware_membership (s : GswipState) (b port vid idx : Nat)
    (untagged pvid : Bool) (hs : s.schedule = [])
    (hpc : port ≠ s.cpuPort)
    (hidx1 : s.maxPorts ≤ idx) (hidx2 : idx < 64)
    (hb : (s.vlans idx).bridge = some b) (hv : (s.vlans idx).vid = vid)
    (hmin : ∀ k, s.maxPorts ≤ k → k < idx →
      ¬((s.vlans k).bridge = some b ∧ (s.vlans k).vid = vid)) :
    (gswip_vlan_add_aware s b port vid untagged pvid).1 = .ok () ∧
    ((gswip_vlan_add_aware s b port vid untagged pvid).2.vlanMapping
      idx).val1.testBit port = true ∧
    ((gswip_vlan_add_aware s b port vid untagged pvid).2.vlanMapping
      idx).val2.testBit port = !untagged ∧
    (∀ q, q ≠ port → q ≠ s.cpuPort →
      ((gswip_vlan_add_aware s b port vid untagged pvid).2.vlanMapping
        idx).val1.testBit q = ((s.vlanMapping idx).val1.testBit q) ∧
      ((gswip_vlan_add_aware s b port vid untagged pvid).2.vlanMapping
        idx).val2.testBit q = ((s.vlanMapping idx).val2.testBit q)) ∧
    (pvid = true →
      (gswip_vlan_add_aware s b port vid untagged pvid).2.regs
        (GSWIP_PCE_DEFPVID port) = idx) ∧
    (pvid = false →
      (gswip_vlan_add_aware s b port vid untagged pvid).2.regs = s.regs) ∧
    (gswip_vlan_add_aware s b port vid untagged pvid).2.vlans = s.vlans := by
  obtain ⟨fid', m', hscan⟩ := awareScanAux_finds s.vlans b vid
    (64 - s.maxPorts) s.maxPorts (-1) false idx hidx1 (by omega) hb hv hmin
  rw [add_aware_found_nil s b port vid untagged pvid fid' m' idx hs hscan]
  dsimp only
  rw [setMap_same]
  refine ⟨rfl, ?_, ?_, ?_, ?_, ?_, rfl⟩
  · simp [Nat.testBit_lor, Nat.testBit_two_pow_self]
  · have e1 : Nat.testBit (2 ^ s.cpuPort) port = false :=
      Nat.testBit_two_pow_of_ne (fun hc => hpc hc.symm)
    cases untagged <;>
      simp [Nat.testBit_lor, Nat.testBit_ldiff, Nat.testBit_two_pow_self, e1]
  · intro q hq1 hq2
    have e1 : Nat.testBit (2 ^ port) q = false :=
      Nat.testBit_two_pow_of_ne (fun hc => hq1 hc.symm)
    have e2 : Nat.testBit (2 ^ s.cpuPort) q = false :=
      Nat.testBit_two_pow_of_ne (fun hc => hq2 hc.symm)
    cases untagged <;>
      simp [Nat.testBit_lor, Nat.testBit_ldiff, e1, e2]
  · intro hp
    rw [hp]
    simp only [if_true]
    unfold gswip_switch_w
    rw [setMap_same]
  · intro hp
    rw [hp]
    simp only [Bool.false_eq_true, if_false]

/-- C3 counterexample: on `oneSlotState` (slot 7 is bridge 1, vid 100;
its mapping entry holds ports 1 and 6 in both stored bitmaps), adding
port 2 to vid 100 with the `untagged` flag CLEAR succeeds and sets
bit 2 in BOTH stored bitmaps `val[1]` and `val[2]`.  Whichever of the
two the claim's "untagged-membership bitmap" denotes, that bitmap
gained the joining port's bit while the `untagged` flag was not set,
contradicting "merges it into the untagged-membership bitmap only when
the untagged flag is set". -/
theorem claim3_counterexample :
    (gswip_vlan_add_aware oneSlotState 1 2 100 false false).1 = .ok () ∧
    ((oneSlotState.vlanMapping 7).val1.testBit 2 = false ∧
      (oneSlotState.vlanMapping 7).val2.testBit 2 = false) ∧
    (((gswip_vlan_add_aware oneSlotState 1 2 100 false
        false).2.vlanMapping 7).val1.testBit 2 = true ∧
      ((gswip_vlan_add_aware oneSlotState 1 2 100 false
        false).2.vlanMapping 7).val2.testBit 2 = true) := by
  refine ⟨rfl, ⟨by decide, by decide⟩, ⟨by decide, by decide⟩⟩

/-- C3 witness: the amended theorem instantiated on `oneSlotState`,
adding port 2 to vid 100 with `untagged` and `pvid` both set. -/
theorem claim3_witness :
    (gswip_vlan_add_aware oneSlotState 1 2 100 true true).1 = .ok () ∧
    ((gswip_vlan_add_aware oneSlotState 1 2 100 true
      true).2.vlanMapping 7).val1.testBit 2 = true ∧
    ((gswip_vlan_add_aware oneSlotState 1 2 100 true
      true).2.vlanMapping 7).val2.testBit 2 = !true ∧
    (gswip_vlan_add_aware oneSlotState 1 2 100 true true).2.regs
      (GSWIP_PCE_DEFPVID 2) = 7 ∧
    (gswip_vlan_add_aware oneSlotState 1 2 100 true true).2.vlans =
      oneSlotState.vlans := by
  have h := claim3_vlan_aware_membership oneSlotState 1 2 100 7 true true
    rfl (by decide) (by decide) (by decide) (by decide) (by decide)
    (fun k hk1 hk2 => absurd (Nat.lt_of_le_of_lt hk1 hk2) (by decide))
  exact ⟨h.1, h.2.1, h.2.2.1, h.2.2.2.2.1 rfl, h.2.2.2.2.2.2⟩

/-- C1 (amended): a VLAN-aware add PRESERVES the one-flow-id-per-bridge
property when it already holds — a created slot inherits the flow id
recorded while scanning the bridge's existing slots — but the driver
never REJECTS a divergence: when every transaction succeeds the
operation returns `.ok ()` or, with the pool exhausted, `-ENOSPC`;
there is no integrity-violation error path, the multiple-flow-id
condition is only logged (`dev_err`) and the add continues. -/
theorem claim1_flow_id_inheritance (s : GswipState) (b port vid : Nat)
    (untagged pvid : Bool) :
    (sameFid s.maxPorts s.vlans b →
      sameFid s.maxPorts
        (gswip_vlan_add_aware s b port vid untagged pvid).2.vlans b) ∧
    (s.schedule = [] →
      (gswip_vlan_add_aware s b port vid untagged pvid).1 = .ok () ∨
      (gswip_vlan_add_aware s b port vid untagged pvid).1 =
        .error .noSpace) := by
  constructor
  · intro hsame
    rcases hscan : awareScanAux s.vlans b vid (-1) false s.maxPorts
        (64 - s.maxPorts) with ⟨fid0, io, m0⟩
    cases io with
    | some idx =>
      have hveq : (gswip_vlan_add_aware s b port vid untagged pvid).2.vlans =
          s.vlans := by
        unfold gswip_vlan_add_aware
        rw [hscan]
        dsimp only
        rcases hr : gswip_pce_table_entry_read s GSWIP_TABLE_VLAN_MAPPING idx
          with ⟨rr, s1⟩
        have h1 : s1.vlans = s.vlans := by
          have h3 := pce_read_vlans s GSWIP_TABLE_VLAN_MAPPING idx
          rw [hr] at h3
          exact h3
        cases rr with
        | error e => exact h1
        | ok st =>
          dsimp only
          rw [addAwareFinish_vlans_false, h1]
      rw [hveq]
      exact hsame
    | none =>
      unfold gswip_vlan_add_aware
      rw [hscan]
      dsimp only
      rcases hc : gswip_vlan_active_create s b fid0 vid with ⟨rc, s1⟩
      cases rc with
      | error e =>
        dsimp only
        rw [active_create_any_error_vlans s b fid0 vid e s1 hc]
        exact hsame
      | ok idx =>
        dsimp only
        obtain ⟨hi1, hi2, hfree, hvl1⟩ :=
          active_create_ok_vlans s b fid0 vid idx s1 hc
        rcases addAwareFinish_cases_true s1 idx
            { index := idx, table := GSWIP_TABLE_VLAN_MAPPING, val0 := vid }
            port vid untagged pvid with ⟨hok, hfv⟩ | ⟨herr, hfv⟩
        · rw [hfv, hvl1]
          rcases awareScanAux_none s.vlans b vid (64 - s.maxPorts) s.maxPorts
              (-1) false fid0 m0 hscan with ⟨hf0, hnob⟩ | ⟨j0, hj01, hj02, hj03, hj04⟩
          · rw [hf0, if_pos rfl]
            intro i j hi1' hi2' hj1' hj2' hbi hbj
            by_cases hie : i = idx
            · by_cases hje : j = idx
              · subst hie
                subst hje
                rfl
              · exfalso
                rw [setMap_other _ _ _ _ hje] at hbj
                exact hnob j hj1' (by omega) hbj
            · exfalso
              rw [setMap_other _ _ _ _ hie] at hbi
              exact hnob i hi1' (by omega) hbi
          · rw [hj04, if_neg (by omega), Int.toNat_natCast]
            intro i j hi1' hi2' hj1' hj2' hbi hbj
            by_cases hie : i = idx
            · by_cases hje : j = idx
              · subst hie
                subst hje
                rfl
              · subst hie
                rw [setMap_other _ _ _ _ hje] at hbj
                rw [setMap_same, setMap_other _ _ _ _ hje]
                exact hsame j0 j hj01 (by omega) hj1' hj2' hj03 hbj
            · by_cases hje : j = idx
              · subst hje
                rw [setMap_other _ _ _ _ hie] at hbi
                rw [setMap_same, setMap_other _ _ _ _ hie]
                exact hsame i j0 hi1' hi2' hj01 (by omega) hbi hj03
              · rw [setMap_other _ _ _ _ hie] at hbi
                rw [setMap_other _ _ _ _ hje] at hbj
                rw [setMap_other _ _ _ _ hie, setMap_other _ _ _ _ hje]
                exact hsame i j hi1' hi2' hj1' hj2' hbi hbj
        · rw [hfv, hvl1, setMap_setMap]
          intro i j hi1' hi2' hj1' hj2' hbi hbj
          by_cases hie : i = idx
          · exfalso
            subst hie
            rw [setMap_same] at hbi
            simp at hbi
          · by_cases hje : j = idx
            · exfalso
              subst hje
              rw [setMap_same] at hbj
              simp at hbj
            · rw [setMap_other _ _ _ _ hie] at hbi
              rw [setMap_other _ _ _ _ hje] at hbj
              rw [setMap_other _ _ _ _ hie, setMap_other _ _ _ _ hje]
              exact hsame i j hi1' hi2' hj1' hj2' hbi hbj
  · intro hs
    rcases hscan : awareScanAux s.vlans b vid (-1) false s.maxPorts
        (64 - s.maxPorts) with ⟨fid0, io, m0⟩
    cases io with
    | some idx =>
      left
      rw [add_aware_found_nil s b port vid untagged pvid fid0 m0 idx hs hscan]
    | none =>
      cases hfree : scanRange (fun i => (s.vlans i).bridge.isNone)
          s.maxPorts (64 - s.maxPorts) with
      | some idx =>
        left
        exact add_aware_created_nil s b port vid untagged pvid fid0 m0 idx
          hs hscan hfree
      | none =>
        right
        unfold gswip_vlan_add_aware
        rw [hscan]
        dsimp only
        rw [active_create_none s b fid0 vid hfree]

/-- C1 counterexample: `divergentFidState` already holds two bridge-1
slots with flow ids 7 and 8.  Adding vid 300 for bridge 1 is NOT
rejected: it returns `.ok ()` and creates slot 9 bound to bridge 1 with
the last-scanned flow id 8, leaving slots with flow ids 7 and 8 for one
bridge — no integrity-violation error exists in the source, the
condition is only logged. -/
theorem claim1_counterexample :
    divergentFidState.vlans 7 = { bridge := some 1, vid := 100, fid := 7 } ∧
    divergentFidState.vlans 8 = { bridge := some 1, vid := 200, fid := 8 } ∧
    (gswip_vlan_add_aware divergentFidState 1 2 300 false false).1 =
      .ok () ∧
    (gswip_vlan_add_aware divergentFidState 1 2 300 false false).2.vlans 9 =
      { bridge := some 1, vid := 300, fid := 8 } ∧
    (gswip_vlan_add_aware divergentFidState 1 2 300 false false).2.vlans 7 =
      { bridge := some 1, vid := 100, fid := 7 } := by
  refine ⟨by decide, by decide, rfl, by decide, by decide⟩

/-- C1 witness: the amended theorem instantiated on `oneSlotState`
(a pool satisfying the one-flow-id property for bridge 1). -/
theorem claim1_witness :
    sameFid oneSlotState.maxPorts
      (gswip_vlan_add_aware oneSlotState 1 2 200 false false).2.vlans 1 ∧
    ((gswip_vlan_add_aware oneSlotState 1 2 200 false false).1 = .ok () ∨
      (gswip_vlan_add_aware oneSlotState 1 2 200 false false).1 =
        .error .noSpace) := by
  have h := claim1_flow_id_inheritance oneSlotState 1 2 200 false false
  refine ⟨h.1 ?_, h.2 rfl⟩
  intro i j _ _ _ _ hbi hbj
  by_cases hi : i = 7
  · by_cases hj : j = 7
    · subst hi
      subst hj
      rfl
    · exfalso
      revert hbj
      simp [oneSlotState, state0, hj]
  · exfalso
    revert hbi
    simp [oneSlotState, state0, hi]

/-- C2 (amended): slot create records its binding only after the write
succeeded (a failing create leaves the pool untouched), and a failing
VLAN add — unaware or aware, including the rollback of a speculatively
created slot after a failing mapping write — leaves the pool's
bookkeeping (`bindingMap`) unchanged; but `gswip_vlan_active_remove` is
NOT transactional: it clears the slot's bridge binding even when its
table write fails (conjunct 4 holds with no assumption on the
schedule), while still returning the write's timeout error. -/
theorem claim2_rollback_transactionality (s : GswipState) :
    (∀ b fid vid e s', gswip_vlan_active_create s b fid vid = (.error e, s') →
      s'.vlans = s.vlans) ∧
    (∀ b port e, (gswip_vlan_add_unaware s b port).1 = .error e →
      bindingMap (gswip_vlan_add_unaware s b port).2.vlans =
        bindingMap s.vlans) ∧
    (∀ b port vid u p e, (gswip_vlan_add_aware s b port vid u p).1 = .error e →
      bindingMap (gswip_vlan_add_aware s b port vid u p).2.vlans =
        bindingMap s.vlans) ∧
    (∀ idx, ((gswip_vlan_active_remove s idx).2.vlans idx).bridge = none) ∧
    (∀ idx rest, s.schedule = false :: rest →
      (gswip_vlan_active_remove s idx).1 = .error .timedOut) := by
  refine ⟨?_, ?_, ?_, ?_, ?_⟩
  · exact fun b fid vid e s' h => active_create_any_error_vlans s b fid vid e s' h
  · intro b port e herr
    unfold gswip_vlan_add_unaware at herr ⊢
    cases hscan : scanRange (fun i => (s.vlans i).bridge == some b)
        s.maxPorts (64 - s.maxPorts) with
    | some idx =>
      dsimp only at herr ⊢
      rcases hr : gswip_pce_table_entry_read s GSWIP_TABLE_VLAN_MAPPING idx
        with ⟨rr, s1⟩
      have h1 : s1.vlans = s.vlans := by
        have h3 := pce_read_vlans s GSWIP_TABLE_VLAN_MAPPING idx
        rw [hr] at h3
        exact h3
      cases rr with
      | error e2 =>
        dsimp only
        rw [h1]
      | ok st =>
        dsimp only
        rw [addUnawareFinish_vlans_false, h1]
    | none =>
      dsimp only at herr ⊢
      rcases hc : gswip_vlan_active_create s b (-1) 0 with ⟨rc, s1⟩
      cases rc with
      | error e2 =>
        dsimp only
        rw [active_create_any_error_vlans s b (-1) 0 e2 s1 hc]
      | ok idx =>
        dsimp only at herr ⊢
        rw [hscan] at herr
        dsimp only at herr
        rw [hc] at herr
        dsimp only at herr
        obtain ⟨hi1, hi2, hfree, hvl1⟩ :=
          active_create_ok_vlans s b (-1) 0 idx s1 hc
        rcases addUnawareFinish_cases_true s1 idx
            { index := idx, table := GSWIP_TABLE_VLAN_MAPPING, val0 := 0 }
            port with ⟨hok, hfv⟩ | ⟨⟨e2, he2⟩, hfv⟩
        · rw [hok] at herr
          cases herr
        · rw [hfv, hvl1, setMap_setMap]
          exact bindingMap_setMap_unbound s.vlans idx _ hfree rfl
  · intro b port vid u p e herr
    unfold gswip_vlan_add_aware at herr ⊢
    rcases hscan : awareScanAux s.vlans b vid (-1) false s.maxPorts
        (64 - s.maxPorts) with ⟨fid0, io, m0⟩
    cases io with
    | some idx =>
      dsimp only at herr ⊢
      rcases hr : gswip_pce_table_entry_read s GSWIP_TABLE_VLAN_MAPPING idx
        with ⟨rr, s1⟩
      have h1 : s1.vlans = s.vlans := by
        have h3 := pce_read_vlans s GSWIP_TABLE_VLAN_MAPPING idx
        rw [hr] at h3
        exact h3
      cases rr with
      | error e2 =>
        dsimp only
        rw [h1]
      | ok st =>
        dsimp only
        rw [addAwareFinish_vlans_false, h1]
    | none =>
      dsimp only at herr ⊢
      rcases hc : gswip_vlan_active_create s b fid0 vid with ⟨rc, s1⟩
      cases rc with
      | error e2 =>
        dsimp only
        rw [active_create_any_error_vlans s b fid0 vid e2 s1 hc]
      | ok idx =>
        dsimp only at herr ⊢
        rw [hscan] at herr
        dsimp only at herr
        rw [hc] at herr
        dsimp only at herr
        obtain ⟨hi1, hi2, hfree, hvl1⟩ :=
          active_create_ok_vlans s b fid0 vid idx s1 hc
        rcases addAwareFinish_cases_true s1 idx
            { index := idx, table := GSWIP_TABLE_VLAN_MAPPING, val0 := vid }
            port vid u p with ⟨hok, hfv⟩ | ⟨⟨e2, he2⟩, hfv⟩
        · rw [hok] at herr
          cases herr
        · rw [hfv, hvl1, setMap_setMap]
          exact bindingMap_setMap_unbound s.vlans idx _ hfree rfl
  · intro idx
    unfold gswip_vlan_active_remove
    dsimp only
    rw [setMap_same]
  · intro idx rest hsch
    unfold gswip_vlan_active_remove gswip_pce_table_entry_write
    rw [hsch]
    rfl

/-- C2 counterexample: on `oneSlotState` with the next transaction set
to time out, releasing slot 7 returns `-ETIMEDOUT` — yet the slot's
bridge binding IS cleared, contradicting "if a hardware table write
fails ... the Slot Pool bookkeeping is left exactly as it was before
the operation" for the slot-release operation. -/
theorem claim2_counterexample :
    (oneSlotState.vlans 7).bridge = some 1 ∧
    (gswip_vlan_active_remove
      { oneSlotState with schedule := [false] } 7).1 = .error .timedOut ∧
    ((gswip_vlan_active_remove
      { oneSlotState with schedule := [false] } 7).2.vlans 7).bridge =
        none := by
  refine ⟨by decide, rfl, by decide⟩

/-- C2 witness: the amended theorem instantiated on `oneSlotState` with
a failing first transaction: the aware add's failure leaves the
bookkeeping unchanged, and the release clears the binding while
returning the timeout. -/
theorem claim2_witness :
    bindingMap ((gswip_vlan_add_aware
        { oneSlotState with schedule := [false] } 1 2 100 false
        false).2.vlans) =
      bindingMap ({ oneSlotState with schedule := [false] } :
        GswipState).vlans ∧
    ((gswip_vlan_active_remove
      { oneSlotState with schedule := [false] } 7).2.vlans 7).bridge =
        none ∧
    (gswip_vlan_active_remove
      { oneSlotState with schedule := [false] } 7).1 = .error .timedOut := by
  have h := claim2_rollback_transactionality
    { oneSlotState with schedule := [false] }
  exact ⟨h.2.2.1 1 2 100 false false .timedOut rfl, h.2.2.2.1 7,
    h.2.2.2.2 7 [] rfl⟩

end Claims

end Gswip
